import Mathlib

/-!
Verification of the velocity-space search engine of
base_local_planner/src/trajectory_planner.cpp (TrajectoryPlanner).

The shallow embedding uses exact rationals (ℚ) for the C++ doubles.
External collaborators (costmap lookup/transform, footprint evaluator,
the tf/angles math helpers, and the kinematic helpers declared in the
planner header which is absent from src/) are abstracted as function
fields of an environment record; everything in trajectory_planner.cpp
itself is translated statement by statement.
-/

namespace TrajPlanner

/-- Truncation of a rational toward zero, the semantics of the C++ cast
int(double) used at trajectory_planner.cpp:249/251. -/
def truncQ (q : ℚ) : ℤ := Int.tdiv q.num (q.den : ℤ)

/-! ## generateTrajectory (trajectory_planner.cpp lines 221-427)

The simulated pose/velocity state and the per-trajectory accumulators. -/

/-- Simulated robot state (x_i, y_i, theta_i, vx_i, vy_i, vtheta_i) of the
simulation loop in TrajectoryPlanner::generateTrajectory. -/
structure SimState where
  x : ℚ
  y : ℚ
  th : ℚ
  vx : ℚ
  vy : ℚ
  vth : ℚ
deriving DecidableEq

/-- Loop accumulators of generateTrajectory: the simulated state plus
path_dist, goal_dist, occ_cost and heading_diff (lines 270-273). -/
structure LoopAcc where
  s : SimState
  path : ℚ
  goal : ℚ
  occ : ℚ
  hd : ℚ
deriving DecidableEq

/-- Which early-return statement of generateTrajectory fired. -/
inductive Cause where
  /-- worldToMap failed (line 280): trajectory left the known map. -/
  | offMap : Cause
  /-- footprint cost negative (line 289): collision. -/
  | collision : Cause
  /-- path/goal distance reached the impossible-cost sentinel (line 352). -/
  | impossible : Cause
deriving DecidableEq

/-- The sentinel cost assigned for each early-return cause
(lines 281, 290, 355). -/
def sentinelCost : Cause → ℚ
  | .offMap => -4
  | .collision => -5
  | .impossible => -2

/-- Configuration snapshot read by generateTrajectory. -/
structure GenCfg where
  heading_scoring : Bool
  simple_attractor : Bool
  sim_time : ℚ
  sim_granularity : ℚ
  angular_sim_granularity : ℚ
  pdist_scale : ℚ
  gdist_scale : ℚ
  occdist_scale : ℚ
  hdiff_scale : ℚ
  path_distance_max : ℚ

/-- External collaborators of generateTrajectory. `worldToMap`, `getCost`
are the costmap interface; `footprintCost` the world model;
`pathDist`/`goalDist` read path_map_/goal_map_ target_dist of a cell
(MapGrid, whose source file is not under src/, is a plain distance table
here); `headingDiffF` abstracts TrajectoryPlanner::headingDiff, which
depends on the tf quaternion library, returning
(heading_diff, goal_dist, path_dist) as at line 332; `hypotF` is the
C library hypot (Euclidean norm of a 2-vector); `advance` packages the
kinematic helpers computeNewVelocity/computeNewXPosition/
computeNewYPosition/computeNewThetaPosition declared in the planner
header (absent from src/). Modelled from the spec: the spec describes
them as one rate-limited integration step of size dt toward the sampled
velocity (spec section 4.2.5); since the exact cos/sin arithmetic is not
expressible over ℚ, the whole one-step integration is a function
(sampled velocities, acceleration limits, dt, state) -> state. -/
structure GenEnv where
  worldToMap : ℚ → ℚ → Option (ℕ × ℕ)
  getCost : ℕ → ℕ → ℚ
  footprintCost : ℚ → ℚ → ℚ → ℚ
  pathDist : ℕ → ℕ → ℚ
  goalDist : ℕ → ℕ → ℚ
  headingDiffF : ℕ → ℕ → ℚ → ℚ → ℚ → ℚ × ℚ × ℚ
  hypotF : ℚ → ℚ → ℚ
  advance : (ℚ × ℚ × ℚ) → (ℚ × ℚ × ℚ) → ℚ → SimState → SimState
  planLastX : ℚ
  planLastY : ℚ

/-- The (path, goal, heading) values read at an updating point: with
heading scoring on the last step they come from headingDiff (line 332),
otherwise from the two distance maps (lines 347-348); the heading value
is the accumulator unchanged in the non-heading case. -/
def pghOf (env : GenEnv) (cfg : GenCfg) (lastb : Bool) (cx cy : ℕ)
    (a : LoopAcc) : ℚ × ℚ × ℚ :=
  if lastb && cfg.heading_scoring then
    let r := env.headingDiffF cx cy a.s.x a.s.y a.s.th
    (r.2.2, r.2.1, r.1)
  else
    (env.pathDist cx cy, env.goalDist cx cy, a.hd)

/-- One iteration of the simulation loop (lines 275-400). `lastb` is the
i = num_steps-1 test; `samp` the sampled velocities; `accs` the
acceleration limits. -/
def simStep (env : GenEnv) (cfg : GenCfg) (imp dt : ℚ)
    (samp accs : ℚ × ℚ × ℚ) (lastb : Bool) (a : LoopAcc) :
    Except Cause LoopAcc :=
  match env.worldToMap a.s.x a.s.y with
  | none => .error .offMap
  | some (cx, cy) =>
    let fc := env.footprintCost a.s.x a.s.y a.s.th
    if fc < 0 then .error .collision
    else
      let occ2 := max (max a.occ fc) (env.getCost cx cy)
      if cfg.simple_attractor then
        let g := (a.s.x - env.planLastX) * (a.s.x - env.planLastX) +
                 (a.s.y - env.planLastY) * (a.s.y - env.planLastY)
        .ok { a with s := env.advance samp accs dt a.s, occ := occ2, goal := g }
      else
        if (lastb && cfg.heading_scoring) || !cfg.heading_scoring then
          let pg := pghOf env cfg lastb cx cy a
          if imp ≤ pg.2.1 ∨ imp ≤ pg.1 then .error .impossible
          else
            let p2 := if 0 < cfg.path_distance_max ∧ pg.1 ≤ cfg.path_distance_max
                      then 0 else pg.1
            let hd2 := if |pg.2.2| < 1/5 then 0 else pg.2.2
            .ok { s := env.advance samp accs dt a.s, path := p2,
                  goal := pg.2.1, occ := occ2, hd := hd2 }
        else
          .ok { a with s := env.advance samp accs dt a.s, occ := occ2 }

/-- The simulation loop, running on the remaining step count; a step is
the last one exactly when one step remains. -/
def runK (env : GenEnv) (cfg : GenCfg) (imp dt : ℚ)
    (samp accs : ℚ × ℚ × ℚ) : ℕ → LoopAcc → Except Cause LoopAcc
  | 0, a => .ok a
  | r + 1, a =>
    match simStep env cfg imp dt samp accs (decide (r = 0)) a with
    | .error c => .error c
    | .ok a2 => runK env cfg imp dt samp accs r a2

/-- Prefix runner: `iterOk r k a` performs `k` loop iterations starting
with `r` steps remaining, returning none as soon as one fails. Used to
state that an early return happens at the first failing step. -/
def iterOk (env : GenEnv) (cfg : GenCfg) (imp dt : ℚ)
    (samp accs : ℚ × ℚ × ℚ) : ℕ → ℕ → LoopAcc → Option LoopAcc
  | _, 0, a => some a
  | r, k + 1, a =>
    match simStep env cfg imp dt samp accs (decide (r = 1)) a with
    | .error _ => none
    | .ok a2 => iterOk env cfg imp dt samp accs (r - 1) k a2

/-- The aggregate cost computed after the loop (lines 403-408). -/
def finishCost (cfg : GenCfg) (a : LoopAcc) : ℚ :=
  if !cfg.heading_scoring then
    cfg.pdist_scale * a.path + a.goal * cfg.gdist_scale +
      cfg.occdist_scale * a.occ
  else
    cfg.occdist_scale * a.occ + cfg.pdist_scale * a.path +
      a.hd * cfg.hdiff_scale + a.goal * cfg.gdist_scale

/-- The scalar fields of a base_local_planner::Trajectory relevant to
the planner logic: the velocities it was generated with, its cost, and
goal_cost_traj_. The latter is written only when the simulation loop
completes (line 425); an early return leaves the previous buffer value
in place, which the Option models. -/
structure GTraj where
  xv : ℚ
  yv : ℚ
  thetav : ℚ
  cost : ℚ
  goalCost : Option ℚ
deriving DecidableEq

/-- The step count of generateTrajectory (lines 247-257): without
heading scoring it scales with linear and angular distance covered, with
heading scoring it is sim_time/sim_granularity; always at least one. -/
def numSteps (env : GenEnv) (cfg : GenCfg) (sx sy sth : ℚ) : ℤ :=
  let vmag := env.hypotF sx sy
  let n0 : ℤ :=
    if !cfg.heading_scoring then
      truncQ (max (vmag * cfg.sim_time / cfg.sim_granularity)
        (|sth| / cfg.angular_sim_granularity) + 1/2)
    else
      truncQ (cfg.sim_time / cfg.sim_granularity + 1/2)
  if n0 = 0 then 1 else n0

/-- TrajectoryPlanner::generateTrajectory (lines 221-427): forward
simulate the sampled velocities (sx, sy, sth) from pose (x, y, th) and
current velocity (vx, vy, vth), returning the trajectory scalar fields.
Failure shows as a negative sentinel cost, never as an exception. -/
def generateTrajectory (env : GenEnv) (cfg : GenCfg)
    (x y th vx vy vth sx sy sth ax ay ath imp : ℚ) : GTraj :=
  let n := numSteps env cfg sx sy sth
  let dt := cfg.sim_time / (n : ℚ)
  let a0 : LoopAcc := ⟨⟨x, y, th, vx, vy, vth⟩, 0, 0, 0, 0⟩
  match runK env cfg imp dt (sx, sy, sth) (ax, ay, ath) n.toNat a0 with
  | .error c => ⟨sx, sy, sth, sentinelCost c, none⟩
  | .ok a => ⟨sx, sy, sth, finishCost cfg a, some (a.goal * cfg.gdist_scale)⟩

/-- Planner state read by scoreTrajectory: the stored acceleration
limits and path_map_.obstacleCosts() (the MapGrid obstacle sentinel; the
MapGrid source is not under src/, so the value is carried abstractly). -/
structure ScoreState where
  acc_lim_x : ℚ
  acc_lim_y : ℚ
  acc_lim_theta : ℚ
  obstacleCosts : ℚ

/-- TrajectoryPlanner::scoreTrajectory (lines 626-638). -/
def scoreTrajectory (env : GenEnv) (cfg : GenCfg) (ps : ScoreState)
    (x y th vx vy vth sx sy sth : ℚ) : ℚ :=
  (generateTrajectory env cfg x y th vx vy vth sx sy sth
    ps.acc_lim_x ps.acc_lim_y ps.acc_lim_theta ps.obstacleCosts).cost

/-- TrajectoryPlanner::checkTrajectory (lines 610-624). -/
def checkTrajectory (env : GenEnv) (cfg : GenCfg) (ps : ScoreState)
    (x y th vx vy vth sx sy sth : ℚ) : Bool :=
  decide (0 ≤ scoreTrajectory env cfg ps x y th vx vy vth sx sy sth)

/-! ## createTrajectories (trajectory_planner.cpp lines 643-1149)

The search keeps two reusable Trajectory buffers (traj_one, traj_two)
with best_traj/comp_traj pointers swapped between them. The buffer
contents relevant to control flow are the CTraj scalar fields. -/

/-- Buffer contents of one reusable Trajectory in createTrajectories. -/
structure CTraj where
  xv : ℚ
  yv : ℚ
  thetav : ℚ
  cost : ℚ
  goalCost : ℚ
deriving DecidableEq

/-- What one generateTrajectory call writes: the cost, and the
goal_cost_traj_ value when the simulation completed (an early return
leaves the buffer's previous goal_cost_traj_ untouched). -/
structure GenOut where
  cost : ℚ
  goalCost : Option ℚ
deriving DecidableEq

/-- Effect of generateTrajectory on the buffer it is handed: velocities
and cost are always overwritten (lines 264-267), goal_cost_traj_ only on
completion (line 425). -/
def writeBuf (b : CTraj) (sx sy sth : ℚ) (o : GenOut) : CTraj :=
  ⟨sx, sy, sth, o.cost, o.goalCost.getD b.goalCost⟩

/-- The two trajectory buffers plus which one best_traj points at. -/
structure BufState where
  one : CTraj
  two : CTraj
  bestIsOne : Bool
deriving DecidableEq

def bestOf (b : BufState) : CTraj := if b.bestIsOne then b.one else b.two

def compOf (b : BufState) : CTraj := if b.bestIsOne then b.two else b.one

/-- Overwrite the buffer comp_traj points at. -/
def setComp (b : BufState) (t : CTraj) : BufState :=
  if b.bestIsOne then { b with two := t } else { b with one := t }

/-- Overwrite the buffer best_traj points at. -/
def setBest (b : BufState) (t : CTraj) : BufState :=
  if b.bestIsOne then { b with one := t } else { b with two := t }

/-- The pointer swap `swap = best_traj; best_traj = comp_traj;
comp_traj = swap;`. -/
def swapBufs (b : BufState) : BufState := { b with bestIsOne := !b.bestIsOne }

/-- Acceptance test of the translate/rotate and strafe sweeps
(lines 723-724, 745-746, 776-777, 808-809): non-negative cost, cost
beats the incumbent (or the incumbent is still the negative
initialization), and goal cost beats the zero-velocity reference. -/
def sweepAccept (refGoal : ℚ) (best comp : CTraj) : Bool :=
  decide (0 ≤ comp.cost) &&
  (decide (comp.cost < best.cost) || decide (best.cost < 0)) &&
  decide (comp.goalCost < refGoal)

/-- Acceptance test of the in-place rotation sweep (lines 885-888);
`raw` is the unclamped vtheta sample, compared against dvtheta. -/
def inPlaceAccept (refGoal dvtheta raw : ℚ) (best comp : CTraj) : Bool :=
  decide (0 ≤ comp.cost) &&
  ((decide (comp.cost < best.cost) && decide (comp.goalCost < best.goalCost)) ||
    decide (best.cost < 0) ||
    (decide (best.yv ≠ 0) && decide (comp.goalCost < best.goalCost) &&
      decide (comp.cost < best.cost))) &&
  (decide (raw > dvtheta) || decide (raw < -dvtheta)) &&
  decide (comp.goalCost < refGoal)

/-- Which acceptance rule a sampled candidate uses. -/
inductive CandKind where
  | sweep : CandKind
  | inPlace : (raw : ℚ) → CandKind
deriving DecidableEq

/-- One sampled candidate velocity of the search. -/
structure Cand where
  sx : ℚ
  sy : ℚ
  sth : ℚ
  kind : CandKind
deriving DecidableEq

/-- Process one candidate: generate it into the comp buffer, then swap
the pointers when the tier's acceptance test passes. -/
def procCand (gen : ℚ → ℚ → ℚ → GenOut) (refGoal dvtheta : ℚ)
    (b : BufState) (c : Cand) : BufState :=
  let b1 := setComp b (writeBuf (compOf b) c.sx c.sy c.sth (gen c.sx c.sy c.sth))
  let acc :=
    match c.kind with
    | .sweep => sweepAccept refGoal (bestOf b1) (compOf b1)
    | .inPlace raw => inPlaceAccept refGoal dvtheta raw (bestOf b1) (compOf b1)
  if acc then swapBufs b1 else b1

/-- Configuration snapshot read by createTrajectories. -/
structure CTCfg where
  max_vel_x : ℚ
  min_vel_x : ℚ
  max_vel_y : ℚ
  /-- min_vel_y_ is stored by reconfigure but never read inside
  createTrajectories; kept for comparison with the claimed window. -/
  min_vel_y : ℚ
  max_vel_th : ℚ
  min_vel_th : ℚ
  min_in_place_vel_th : ℚ
  sim_time : ℚ
  sim_period : ℚ
  dwa : Bool
  holonomic : Bool
  vx_samples : ℤ
  vy_samples : ℤ
  vtheta_samples : ℤ
  backup_vel : ℚ
  oscillation_reset_dist : ℚ
  escape_reset_dist : ℚ
  escape_reset_theta : ℚ
  final_goal_valid : Bool
  final_goal_x : ℚ
  final_goal_y : ℚ

/-- Environment of createTrajectories. `gen` abstracts
generateTrajectory at this call's fixed pose, velocity, acceleration
limits, configuration and grids, as a function of the three sampled
velocities; `hypotF` and `shortAng` are the external hypot and
angles::shortest_angular_distance; `junkMinX`/`junkMinY` are the values
of the locals min_vel_x/min_vel_y, which C++ leaves uninitialized when
final_goal_position_valid_ is false (line 648 declares them, they are
only assigned at lines 653/655); `defaultGoalCost` is the
goal_cost_traj_ field of a default-constructed Trajectory (the fork
adds the field without initializing it; the Trajectory constructor is
not under src/). -/
structure CTEnv where
  gen : ℚ → ℚ → ℚ → GenOut
  hypotF : ℚ → ℚ → ℚ
  shortAng : ℚ → ℚ → ℚ
  junkMinX : ℚ
  junkMinY : ℚ
  defaultGoalCost : ℚ

/-- Arguments of one createTrajectories call (vy is passed through to
generateTrajectory only, hence absorbed in `gen`). -/
structure CTArgs where
  x : ℚ
  y : ℚ
  theta : ℚ
  vx : ℚ
  vtheta : ℚ
  accx : ℚ
  accy : ℚ
  acctheta : ℚ

/-- The six velocity bounds the sampling uses. -/
structure Window where
  maxX : ℚ
  minX : ℚ
  maxY : ℚ
  minY : ℚ
  maxTh : ℚ
  minTh : ℚ
deriving DecidableEq

/-- The velocity-bound computation of createTrajectories
(lines 646-677): optional clamping by the remaining goal distance, then
the dynamic-window (dwa) or full-horizon reachability clamps. Note that
the y bounds in the dwa branch are computed from vx (lines 663-664). -/
def computeWindow (env : CTEnv) (cfg : CTCfg) (a : CTArgs) : Window :=
  let start :=
    if cfg.final_goal_valid then
      let fgd := env.hypotF (cfg.final_goal_x - a.x) (cfg.final_goal_y - a.y)
      let mX := min cfg.max_vel_x (fgd / cfg.sim_time)
      let mY := min cfg.max_vel_y (fgd / cfg.sim_time)
      (mX, min cfg.min_vel_x mX, mY, -mY)
    else
      (cfg.max_vel_x, env.junkMinX, cfg.max_vel_y, env.junkMinY)
  if cfg.dwa then
    { maxX := max (min start.1 (a.vx + a.accx * cfg.sim_period)) cfg.min_vel_x
      minX := max start.2.1 (a.vx - a.accx * cfg.sim_period)
      maxY := min start.2.2.1 (a.vx + a.accy * cfg.sim_period)
      minY := max start.2.2.2 (a.vx - a.accy * cfg.sim_period)
      maxTh := min cfg.max_vel_th (a.vtheta + a.acctheta * cfg.sim_period)
      minTh := max cfg.min_vel_th (a.vtheta - a.acctheta * cfg.sim_period) }
  else
    { maxX := max (min start.1 (a.vx + a.accx * cfg.sim_time)) cfg.min_vel_x
      minX := start.2.1
      maxY := start.2.2.1
      minY := start.2.2.2
      maxTh := min cfg.max_vel_th (a.vtheta + a.acctheta * cfg.sim_time)
      minTh := max cfg.min_vel_th (a.vtheta - a.acctheta * cfg.sim_time) }

/-- Sample spacing (lines 681-683). C++ divides by samples-1 as a
double; with a single sample this is a division by zero (infinite in
C++, zero in ℚ) — the claims are settled away from that configuration. -/
def dSamp (hi lo : ℚ) (n : ℤ) : ℚ := (hi - lo) / ((n : ℚ) - 1)

/-- Candidates of the translate/rotate sweep (lines 716-761): for each
of vx_samples linear samples, first the straight trajectory, then
vtheta_samples - 1 angular samples. -/
def tierACands (cfg : CTCfg) (w : Window) (dvx dvtheta : ℚ) : List Cand :=
  (List.range cfg.vx_samples.toNat).flatMap (fun i =>
    let vxs := w.minX + (i : ℚ) * dvx
    ⟨vxs, 0, 0, .sweep⟩ ::
      (List.range (cfg.vtheta_samples - 1).toNat).map (fun j =>
        ⟨vxs, 0, w.minTh + (j : ℚ) * dvtheta, .sweep⟩))

/-- Candidates of the pure-strafe sweep (lines 764-791): vy_samples - 1
lateral samples at zero forward speed, skipping samples of magnitude
under 0.01. -/
def tierB1Cands (cfg : CTCfg) (w : Window) (dvy : ℚ) : List Cand :=
  ((List.range (cfg.vy_samples - 1).toNat).filterMap (fun j =>
    let vys := w.minY + (j : ℚ) * dvy
    if |vys| < 1/100 then none else some ⟨0, vys, 0, .sweep⟩))

/-- Candidates of the combined forward/strafe sweep (lines 793-824):
vx_samples/2 forward samples starting at half the minimum forward
speed, each with the lateral sweep. -/
def tierB2Cands (cfg : CTCfg) (w : Window) (dvx dvy : ℚ) : List Cand :=
  (List.range (Int.tdiv cfg.vx_samples 2).toNat).flatMap (fun i =>
    let vxs := w.minX / 2 + (i : ℚ) * dvx
    (List.range (cfg.vy_samples - 1).toNat).filterMap (fun j =>
      let vys := w.minY + (j : ℚ) * dvy
      if |vys| < 1/100 then none else some ⟨vxs, vys, 0, .sweep⟩))

/-- Candidates of the in-place rotation sweep (lines 866-940):
vtheta_samples angular samples, each clamped away from zero by
min_in_place_vel_th (lines 876-877) while the acceptance test compares
the unclamped sample against dvtheta. -/
def tierCCands (cfg : CTCfg) (w : Window) (dvtheta : ℚ) : List Cand :=
  (List.range cfg.vtheta_samples.toNat).map (fun i =>
    let raw := w.minTh + (i : ℚ) * dvtheta
    let lim := if raw > 0 then max raw cfg.min_in_place_vel_th
               else min raw (-cfg.min_in_place_vel_th)
    ⟨0, 0, lim, .inPlace raw⟩)

/-- All candidates the search simulates before the backup tier, in
program order. The y_vels_ strafe tier at lines 995-1038 sits behind
`if (false)` and the duplicated guard-update block at lines 1041-1089 is
unreachable (its condition best_traj->cost_ >= 0 is false whenever the
identical test at line 943 was), so neither is part of the model. -/
def allCands (cfg : CTCfg) (w : Window) (dvx dvy dvtheta : ℚ) : List Cand :=
  tierACands cfg w dvx dvtheta ++
    (if cfg.holonomic then tierB1Cands cfg w dvy ++ tierB2Cands cfg w dvx dvy
     else []) ++
    tierCCands cfg w dvtheta

/-- The latched oscillation/escape state carried between cycles. -/
structure OscState where
  stuck_left : Bool
  stuck_right : Bool
  stuck_left_strafe : Bool
  stuck_right_strafe : Bool
  rotating_left : Bool
  rotating_right : Bool
  strafe_left : Bool
  strafe_right : Bool
  prev_x : ℚ
  prev_y : ℚ
  escaping : Bool
  escape_x : ℚ
  escape_y : ℚ
  escape_theta : ℚ
deriving DecidableEq

/-- Clearing of the eight direction flags (lines 975-982). -/
def clearFlags (o : OscState) : OscState :=
  { o with stuck_left := false, stuck_right := false,
           stuck_left_strafe := false, stuck_right_strafe := false,
           rotating_left := false, rotating_right := false,
           strafe_left := false, strafe_right := false }

/-- Guard update after a selected trajectory (lines 943-989): classify a
non-forward best by its angular/lateral sign, latch stuck flags on
repeat commitments, anchor the position, then apply the
oscillation-reset and escape-reset distance checks. -/
def oscUpdateSelected (env : CTEnv) (cfg : CTCfg) (a : CTArgs)
    (best : CTraj) (o : OscState) : OscState :=
  let o1 :=
    if ¬ best.xv > 0 then
      let oc :=
        if best.thetav < 0 then
          { o with stuck_right := o.rotating_right || o.stuck_right,
                   rotating_right := true }
        else if best.thetav > 0 then
          { o with stuck_left := o.rotating_left || o.stuck_left,
                   rotating_left := true }
        else if best.yv > 0 then
          { o with stuck_right_strafe := o.strafe_right || o.stuck_right_strafe,
                   strafe_right := true }
        else if best.yv < 0 then
          { o with stuck_left_strafe := o.strafe_left || o.stuck_left_strafe,
                   strafe_left := true }
        else o
      { oc with prev_x := a.x, prev_y := a.y }
    else o
  let o2 :=
    if env.hypotF (a.x - o1.prev_x) (a.y - o1.prev_y) >
        cfg.oscillation_reset_dist then clearFlags o1 else o1
  if env.hypotF (a.x - o2.escape_x) (a.y - o2.escape_y) > cfg.escape_reset_dist ∨
      |env.shortAng o2.escape_theta a.theta| > cfg.escape_reset_theta then
    { o2 with escaping := false }
  else o2

/-- Planner state threaded through createTrajectories calls: the two
reusable buffers and the latched guard state. -/
structure CTState where
  one : CTraj
  two : CTraj
  osc : OscState
deriving DecidableEq

/-- The goal-cost bar: goal_cost_traj_ of the freshly constructed
current_pos_traj after generateTrajectory with zero sampled velocities
(lines 706-708). -/
def refGoalOf (env : CTEnv) : ℚ :=
  (writeBuf ⟨0, 0, 0, -1, env.defaultGoalCost⟩ 0 0 0 (env.gen 0 0 0)).goalCost

/-- The buffer state after both buffers' costs are initialized to -1
(lines 690-694) and every pre-backup candidate has been processed. -/
def searchBufs (env : CTEnv) (cfg : CTCfg) (st : CTState) (a : CTArgs) :
    BufState :=
  let w := computeWindow env cfg a
  let dvx := dSamp w.maxX w.minX cfg.vx_samples
  let dvy := dSamp w.maxY w.minY cfg.vy_samples
  let dvtheta := dSamp w.maxTh w.minTh cfg.vtheta_samples
  (allCands cfg w dvx dvy dvtheta).foldl
    (procCand env.gen (refGoalOf env) dvtheta)
    ⟨{ st.one with cost := -1 }, { st.two with cost := -1 }, true⟩

/-- The incumbent after the pre-backup search. -/
def searchBest (env : CTEnv) (cfg : CTCfg) (st : CTState) (a : CTArgs) :
    CTraj :=
  bestOf (searchBufs env cfg st a)

/-- The backup tier (lines 1091-1147): generate the fixed backward
trajectory into comp_traj, apply the conditional acceptance swap
(lines 1099-1103), then the unconditional swap (lines 1107-1109), the
oscillation-reset check, the escape bookkeeping, and the -1 to 1 cost
bump (lines 1140-1141) before returning best_traj. -/
def backupPhase (env : CTEnv) (cfg : CTCfg) (a : CTArgs) (b : BufState)
    (o : OscState) : CTraj × BufState × OscState :=
  let b1 := setComp b
    (writeBuf (compOf b) cfg.backup_vel 0 0 (env.gen cfg.backup_vel 0 0))
  let b2 :=
    if 0 ≤ (compOf b1).cost ∧
        ((compOf b1).cost < (bestOf b1).cost ∨ (bestOf b1).cost < 0) then
      swapBufs b1
    else b1
  let b3 := swapBufs b2
  let o1 :=
    if env.hypotF (a.x - o.prev_x) (a.y - o.prev_y) >
        cfg.oscillation_reset_dist then clearFlags o else o
  let o2 :=
    if ¬ o1.escaping ∧ (bestOf b3).cost > -2 then
      { o1 with escape_x := a.x, escape_y := a.y, escape_theta := a.theta }
    else o1
  let o3 :=
    if env.hypotF (a.x - o2.escape_x) (a.y - o2.escape_y) >
        cfg.escape_reset_dist ∨
        |env.shortAng o2.escape_theta a.theta| > cfg.escape_reset_theta then
      { o2 with escaping := false }
    else o2
  let best := bestOf b3
  let bestFinal := if best.cost = -1 then { best with cost := 1 } else best
  (bestFinal, setBest b3 bestFinal, o3)

/-- TrajectoryPlanner::createTrajectories (lines 643-1149): the full
search, returning the chosen trajectory and the planner state carried to
the next cycle. -/
def createTrajectories (env : CTEnv) (cfg : CTCfg) (st : CTState)
    (a : CTArgs) : CTraj × CTState :=
  let bufs := searchBufs env cfg st a
  if 0 ≤ (bestOf bufs).cost then
    (bestOf bufs,
      ⟨bufs.one, bufs.two, oscUpdateSelected env cfg a (bestOf bufs) st.osc⟩)
  else
    let r := backupPhase env cfg a bufs st.osc
    (r.1, ⟨r.2.1.one, r.2.1.two, r.2.2⟩)

/-! ## reconfigure (trajectory_planner.cpp lines 59-145), sample counts -/

/-- The sampling fields of a BaseLocalPlannerConfig. -/
structure SampleCfg where
  vx_samples : ℤ
  vy_samples : ℤ
  vtheta_samples : ℤ
deriving DecidableEq

/-- The planner's sample counts after reconfigure, with flags recording
whether the ROS_WARN corrections fired. -/
structure SampleState where
  vx_samples : ℤ
  vy_samples : ℤ
  vtheta_samples : ℤ
  warned_x : Bool
  warned_theta : Bool
deriving DecidableEq

/-- The sample-count portion of TrajectoryPlanner::reconfigure
(lines 101-114): vx_samples_ and vtheta_samples_ are forced to 1 when
non-positive, with a warning; vy_samples_ is stored as given. -/
def reconfigureSamples (c : SampleCfg) : SampleState :=
  { vx_samples := if c.vx_samples ≤ 0 then 1 else c.vx_samples
    vy_samples := c.vy_samples
    vtheta_samples := if c.vtheta_samples ≤ 0 then 1 else c.vtheta_samples
    warned_x := decide (c.vx_samples ≤ 0)
    warned_theta := decide (c.vtheta_samples ≤ 0) }

/-! ## getLocalGoal (trajectory_planner.cpp lines 1237-1240) -/

/-- Modelled from the spec: MapGrid (base_local_planner map_grid.cpp/h,
not under src/). The spec says the goal potential map "seeds from only
the final path pose (or local sub-goal)" and that its anchor is the
local-goal seed stored on the goal-distance grid; the model keeps the
anchor fields goal_x_/goal_y_ that line 1238 reads, plus the seed list,
on each grid. -/
structure MapGridModel where
  goal_x : ℚ
  goal_y : ℚ
  seeds : List (ℚ × ℚ)
deriving DecidableEq

/-- Modelled from the spec: MapGrid::setTargetCells seeds the grid from
every pose of the reference path; the spec attaches no goal anchor to
path seeding, so goal_x_/goal_y_ are untouched. -/
def MapGridModel.setTargetCells (m : MapGridModel) (plan : List (ℚ × ℚ)) :
    MapGridModel :=
  { m with seeds := plan }

/-- Modelled from the spec: MapGrid::setLocalGoal seeds the grid from
the chosen local-goal point and records it as the grid's anchor. -/
def MapGridModel.setLocalGoal (m : MapGridModel) (anchor : ℚ × ℚ) :
    MapGridModel :=
  { m with seeds := [anchor], goal_x := anchor.1, goal_y := anchor.2 }

/-- TrajectoryPlanner::getLocalGoal (lines 1237-1240): it reads
path_map_.goal_x_/goal_y_ — the path-distance grid's fields, not the
goal map's. Both grids are passed to make the choice visible. -/
def getLocalGoal (path_map _goal_map : MapGridModel) : ℚ × ℚ :=
  (path_map.goal_x, path_map.goal_y)

/-- The per-cycle grid refresh of findBestPath / updatePlan
(lines 604-605, 1176-1177): setTargetCells on the path map,
setLocalGoal on the goal map. -/
def refreshGrids (path_map goal_map : MapGridModel) (plan : List (ℚ × ℚ))
    (anchor : ℚ × ℚ) : MapGridModel × MapGridModel :=
  (path_map.setTargetCells plan, goal_map.setLocalGoal anchor)

end TrajPlanner

open TrajPlanner

/-! ## Claim theorems -/

/-- Claim C10 (confirmed): checkTrajectory returns true exactly when
scoreTrajectory on the same arguments is non-negative, and
scoreTrajectory is precisely the cost field generateTrajectory assigns
to a fresh trajectory run with the planner's stored acceleration limits
and path_map_.obstacleCosts() as the impossible cost. -/
theorem C10_check_score_generate (env : GenEnv) (cfg : GenCfg)
    (ps : ScoreState) (x y th vx vy vth sx sy sth : ℚ) :
    (checkTrajectory env cfg ps x y th vx vy vth sx sy sth = true ↔
      0 ≤ scoreTrajectory env cfg ps x y th vx vy vth sx sy sth) ∧
    scoreTrajectory env cfg ps x y th vx vy vth sx sy sth =
      (generateTrajectory env cfg x y th vx vy vth sx sy sth
        ps.acc_lim_x ps.acc_lim_y ps.acc_lim_theta ps.obstacleCosts).cost := by
  exact ⟨by simp [checkTrajectory], rfl⟩

/-- Claim C9, counterexample: reconfigure with vy_samples = 0 leaves the
lateral sample count at 0, so it is not true that every sampled axis is
clamped to at least one sample. -/
theorem C9_cex_vy_not_clamped :
    (reconfigureSamples ⟨5, 0, 5⟩).vy_samples = 0 ∧
    ¬ 1 ≤ (reconfigureSamples ⟨5, 0, 5⟩).vy_samples := by
  exact ⟨rfl, by decide⟩

/-- Claim C9 (corrected): reconfigure clamps only the linear-x and
theta sample counts to at least one (warning exactly when it corrects),
and stores the lateral-y sample count unchanged, so a non-positive
vy_samples survives reconfigure. -/
theorem C9_sample_clamping (c : SampleCfg) :
    1 ≤ (reconfigureSamples c).vx_samples ∧
    1 ≤ (reconfigureSamples c).vtheta_samples ∧
    (reconfigureSamples c).vy_samples = c.vy_samples ∧
    (reconfigureSamples c).warned_x = decide (c.vx_samples ≤ 0) ∧
    (reconfigureSamples c).warned_theta = decide (c.vtheta_samples ≤ 0) := by
  refine ⟨?_, ?_, rfl, rfl, rfl⟩ <;>
    simp only [reconfigureSamples] <;> split <;> omega

/-- Claim C8, counterexample: with both grids' anchors initially 0 and
the reference path ending at (5, 7), the per-cycle refresh stores
(5, 7) as the goal map's local-goal anchor, yet getLocalGoal returns
(0, 0) — not the anchor point used by the goal potential map. -/
theorem C8_cex_getLocalGoal_not_goal_anchor :
    getLocalGoal (refreshGrids ⟨0, 0, []⟩ ⟨0, 0, []⟩ [(1, 1), (5, 7)] (5, 7)).1
        (refreshGrids ⟨0, 0, []⟩ ⟨0, 0, []⟩ [(1, 1), (5, 7)] (5, 7)).2 = (0, 0) ∧
    ((refreshGrids ⟨0, 0, []⟩ ⟨0, 0, []⟩ [(1, 1), (5, 7)] (5, 7)).2.goal_x,
      (refreshGrids ⟨0, 0, []⟩ ⟨0, 0, []⟩ [(1, 1), (5, 7)] (5, 7)).2.goal_y) =
      (5, 7) ∧
    ((0 : ℚ), (0 : ℚ)) ≠ ((5 : ℚ), (7 : ℚ)) := by
  exact ⟨rfl, rfl, by decide⟩

/-- Claim C8 (corrected): getLocalGoal returns the anchor fields of the
path-distance grid, which the per-cycle refresh leaves at their prior
value — it does not return the local-goal seed stored on the
goal-distance grid, whatever seed is chosen. -/
theorem C8_getLocalGoal_reads_path_map (pm gm : MapGridModel)
    (plan : List (ℚ × ℚ)) (anchor : ℚ × ℚ) :
    getLocalGoal (refreshGrids pm gm plan anchor).1
        (refreshGrids pm gm plan anchor).2 = (pm.goal_x, pm.goal_y) := by
  rfl

instance {ε α : Type} [DecidableEq ε] [DecidableEq α] :
    DecidableEq (Except ε α) := fun a b =>
  match a, b with
  | .error e1, .error e2 =>
    if h : e1 = e2 then .isTrue (by rw [h]) else .isFalse (by simp [h])
  | .ok a1, .ok a2 =>
    if h : a1 = a2 then .isTrue (by rw [h]) else .isFalse (by simp [h])
  | .error _, .ok _ => .isFalse (by simp)
  | .ok _, .error _ => .isFalse (by simp)

/-- An error of the simulation loop surfaces at the first failing step:
all earlier iterations succeeded and the failing one raised exactly the
reported cause. -/
theorem runK_error_first (env : GenEnv) (cfg : GenCfg) (imp dt : ℚ)
    (samp accs : ℚ × ℚ × ℚ) :
    ∀ (r : ℕ) (a : LoopAcc) (c : Cause),
      runK env cfg imp dt samp accs r a = .error c →
      ∃ k, k < r ∧ ∃ ak, iterOk env cfg imp dt samp accs r k a = some ak ∧
        simStep env cfg imp dt samp accs (decide (r - k = 1)) ak = .error c := by
  intro r
  induction r with
  | zero => intro a c h; simp [runK] at h
  | succ n ih =>
    intro a c h
    rw [runK] at h
    rcases hs : simStep env cfg imp dt samp accs (decide (n = 0)) a with c2 | a2
    · rw [hs] at h
      refine ⟨0, Nat.succ_pos n, a, ?_, ?_⟩
      · simp [iterOk]
      · have hd : decide (n + 1 - 0 = 1) = decide (n = 0) :=
          decide_eq_decide.mpr (by omega)
        rw [hd, hs]
        exact h
    · rw [hs] at h
      obtain ⟨k, hk, ak, hak, hstep⟩ := ih a2 c h
      refine ⟨k + 1, by omega, ak, ?_, ?_⟩
      · rw [iterOk]
        have hd : decide (n + 1 = 1) = decide (n = 0) :=
          decide_eq_decide.mpr (by omega)
        rw [hd, hs]
        simpa using hak
      · have hd : decide (n + 1 - (k + 1) = 1) = decide (n - k = 1) :=
          decide_eq_decide.mpr (by omega)
        rw [hd]
        exact hstep

/-- Claim C4 (confirmed): generateTrajectory signals failure only
through a negative sentinel cost, set at the first failing simulation
step, with a distinct sentinel per cause: -4 when worldToMap fails
(off the known map), -5 when the footprint cost is negative
(collision), -2 when the path or goal distance reaches the
impossible-cost sentinel; on normal completion the cost is the weighted
score instead. -/
theorem C4_generateTrajectory_sentinels (env : GenEnv) (cfg : GenCfg)
    (x y th vx vy vth sx sy sth ax ay ath imp : ℚ) :
    (∀ c : Cause,
      runK env cfg imp (cfg.sim_time / ((numSteps env cfg sx sy sth : ℤ) : ℚ))
          (sx, sy, sth) (ax, ay, ath) (numSteps env cfg sx sy sth).toNat
          ⟨⟨x, y, th, vx, vy, vth⟩, 0, 0, 0, 0⟩ = .error c →
      (generateTrajectory env cfg x y th vx vy vth sx sy sth ax ay ath
          imp).cost = sentinelCost c ∧
      ∃ k, k < (numSteps env cfg sx sy sth).toNat ∧
        ∃ ak, iterOk env cfg imp
            (cfg.sim_time / ((numSteps env cfg sx sy sth : ℤ) : ℚ))
            (sx, sy, sth) (ax, ay, ath) (numSteps env cfg sx sy sth).toNat k
            ⟨⟨x, y, th, vx, vy, vth⟩, 0, 0, 0, 0⟩ = some ak ∧
          simStep env cfg imp
            (cfg.sim_time / ((numSteps env cfg sx sy sth : ℤ) : ℚ))
            (sx, sy, sth) (ax, ay, ath)
            (decide ((numSteps env cfg sx sy sth).toNat - k = 1)) ak =
            .error c) ∧
    (∀ a2 : LoopAcc,
      runK env cfg imp (cfg.sim_time / ((numSteps env cfg sx sy sth : ℤ) : ℚ))
          (sx, sy, sth) (ax, ay, ath) (numSteps env cfg sx sy sth).toNat
          ⟨⟨x, y, th, vx, vy, vth⟩, 0, 0, 0, 0⟩ = .ok a2 →
      (generateTrajectory env cfg x y th vx vy vth sx sy sth ax ay ath
          imp).cost = finishCost cfg a2 ∧
      (generateTrajectory env cfg x y th vx vy vth sx sy sth ax ay ath
          imp).goalCost = some (a2.goal * cfg.gdist_scale)) ∧
    sentinelCost .offMap = -4 ∧ sentinelCost .collision = -5 ∧
    sentinelCost .impossible = -2 ∧
    (∀ c1 c2 : Cause, sentinelCost c1 = sentinelCost c2 → c1 = c2) := by
  refine ⟨?_, ?_, rfl, rfl, rfl, ?_⟩
  · intro c h
    constructor
    · simp only [generateTrajectory]
      rw [h]
    · exact runK_error_first env cfg imp _ _ _ _ _ c h
  · intro a2 h
    constructor
    · simp only [generateTrajectory]
      rw [h]
    · simp only [generateTrajectory]
      rw [h]
  · intro c1 c2 h
    cases c1 <;> cases c2 <;> first
      | rfl
      | (exfalso; norm_num [sentinelCost] at h)

/-- Environment for the C4 witness: the footprint evaluator reports a
collision everywhere. -/
def envW4 : GenEnv where
  worldToMap := fun _ _ => some (0, 0)
  getCost := fun _ _ => 0
  footprintCost := fun _ _ _ => -1
  pathDist := fun _ _ => 0
  goalDist := fun _ _ => 0
  headingDiffF := fun _ _ _ _ _ => (0, 0, 0)
  hypotF := fun a _ => a
  advance := fun _ _ _ s => s
  planLastX := 0
  planLastY := 0

/-- Configuration for the C4 witness. -/
def cfgW4 : GenCfg where
  heading_scoring := false
  simple_attractor := false
  sim_time := 1
  sim_granularity := 1
  angular_sim_granularity := 1
  pdist_scale := 1
  gdist_scale := 1
  occdist_scale := 1
  hdiff_scale := 1
  path_distance_max := 0

/-- Witness for C4: on a concrete run whose first step collides, the
returned cost is the collision sentinel -5. -/
theorem C4_witness :
    runK envW4 cfgW4 100
        (cfgW4.sim_time / ((numSteps envW4 cfgW4 1 0 0 : ℤ) : ℚ))
        (1, 0, 0) (1, 1, 1) (numSteps envW4 cfgW4 1 0 0).toNat
        ⟨⟨0, 0, 0, 0, 0, 0⟩, 0, 0, 0, 0⟩ = .error .collision ∧
    (generateTrajectory envW4 cfgW4 0 0 0 0 0 0 1 0 0 1 1 1 100).cost = -5 := by
  have hn : numSteps envW4 cfgW4 1 0 0 = 1 := by
    have ht : Int.tdiv 3 2 = 1 := by decide
    norm_num [numSteps, truncQ, envW4, cfgW4, ht]
  have h : runK envW4 cfgW4 100
      (cfgW4.sim_time / ((numSteps envW4 cfgW4 1 0 0 : ℤ) : ℚ))
      (1, 0, 0) (1, 1, 1) (numSteps envW4 cfgW4 1 0 0).toNat
      ⟨⟨0, 0, 0, 0, 0, 0⟩, 0, 0, 0, 0⟩ = .error .collision := by
    rw [hn]
    norm_num [runK, simStep, envW4, cfgW4]
  exact ⟨h,
    ((C4_generateTrajectory_sentinels envW4 cfgW4 0 0 0 0 0 0 1 0 0 1 1 1
      100).1 .collision h).1⟩

/-- Claim C7 (confirmed): at any evaluated point where path and goal
distances are updated, if the configured cap is positive and the path
distance read there is at most the cap, the step stores a zero path
distance (the candidate is not rejected there, and the goal, obstacle
and heading terms are untouched), and a trajectory whose final stored
path distance is zero gets no path-distance contribution in its cost. -/
theorem C7_path_distance_cap (env : GenEnv) (cfg : GenCfg) (imp dt : ℚ)
    (samp accs : ℚ × ℚ × ℚ) (lastb : Bool) (a : LoopAcc) (cx cy : ℕ)
    (hsa : cfg.simple_attractor = false)
    (hupd : ((lastb && cfg.heading_scoring) || !cfg.heading_scoring) = true)
    (hmap : env.worldToMap a.s.x a.s.y = some (cx, cy))
    (hfoot : 0 ≤ env.footprintCost a.s.x a.s.y a.s.th)
    (himp : ¬ (imp ≤ (pghOf env cfg lastb cx cy a).2.1 ∨
      imp ≤ (pghOf env cfg lastb cx cy a).1))
    (hcap : 0 < cfg.path_distance_max)
    (hwithin : (pghOf env cfg lastb cx cy a).1 ≤ cfg.path_distance_max) :
    simStep env cfg imp dt samp accs lastb a =
      .ok { s := env.advance samp accs dt a.s, path := 0,
            goal := (pghOf env cfg lastb cx cy a).2.1,
            occ := max (max a.occ (env.footprintCost a.s.x a.s.y a.s.th))
              (env.getCost cx cy),
            hd := if |(pghOf env cfg lastb cx cy a).2.2| < 1/5 then 0
                  else (pghOf env cfg lastb cx cy a).2.2 } ∧
    (∀ b : LoopAcc, b.path = 0 → finishCost cfg b =
      if cfg.heading_scoring then
        cfg.occdist_scale * b.occ + b.hd * cfg.hdiff_scale +
          b.goal * cfg.gdist_scale
      else b.goal * cfg.gdist_scale + cfg.occdist_scale * b.occ) := by
  constructor
  · rw [simStep, hmap]
    simp only [hsa, hupd, Bool.false_eq_true, if_false, if_true]
    rw [if_neg (not_lt.mpr hfoot), if_neg himp, if_pos ⟨hcap, hwithin⟩]
  · intro b hb
    cases hs : cfg.heading_scoring <;> simp [finishCost, hs, hb]

/-- Environment for the C7 witness: path distance 3 and goal distance 4
at the single visited cell. -/
def envW7 : GenEnv where
  worldToMap := fun _ _ => some (1, 2)
  getCost := fun _ _ => 0
  footprintCost := fun _ _ _ => 0
  pathDist := fun _ _ => 3
  goalDist := fun _ _ => 4
  headingDiffF := fun _ _ _ _ _ => (0, 0, 0)
  hypotF := fun a _ => a
  advance := fun _ _ _ s => s
  planLastX := 0
  planLastY := 0

/-- Configuration for the C7 witness: cap 5, no heading scoring. -/
def cfgW7 : GenCfg where
  heading_scoring := false
  simple_attractor := false
  sim_time := 1
  sim_granularity := 1
  angular_sim_granularity := 1
  pdist_scale := 7
  gdist_scale := 1
  occdist_scale := 1
  hdiff_scale := 1
  path_distance_max := 5

/-- Witness for C7: the concrete cap hypotheses hold (path distance 3
within cap 5) and the step stores path distance 0 while proceeding. -/
theorem C7_witness :
    0 < cfgW7.path_distance_max ∧
    (pghOf envW7 cfgW7 false 1 2 ⟨⟨0, 0, 0, 0, 0, 0⟩, 0, 0, 0, 0⟩).1 ≤
      cfgW7.path_distance_max ∧
    simStep envW7 cfgW7 100 1 (0, 0, 0) (0, 0, 0) false
        ⟨⟨0, 0, 0, 0, 0, 0⟩, 0, 0, 0, 0⟩ =
      .ok ⟨⟨0, 0, 0, 0, 0, 0⟩, 0, 4, 0, 0⟩ := by
  have h := C7_path_distance_cap envW7 cfgW7 100 1 (0, 0, 0) (0, 0, 0) false
    ⟨⟨0, 0, 0, 0, 0, 0⟩, 0, 0, 0, 0⟩ 1 2 rfl rfl rfl (by norm_num [envW7])
    (by norm_num [pghOf, envW7, cfgW7]) (by norm_num [cfgW7])
    (by norm_num [pghOf, envW7, cfgW7])
  refine ⟨by norm_num [cfgW7], by norm_num [pghOf, envW7, cfgW7], ?_⟩
  rw [h.1]
  norm_num [pghOf, envW7, cfgW7]

/-! ### Buffer-state lemmas for the search fold -/

theorem bestOf_setComp (b : BufState) (t : CTraj) :
    bestOf (setComp b t) = bestOf b := by
  cases hb : b.bestIsOne <;> simp [bestOf, setComp, hb]

theorem compOf_setComp (b : BufState) (t : CTraj) :
    compOf (setComp b t) = t := by
  cases hb : b.bestIsOne <;> simp [compOf, setComp, hb]

theorem bestIsOne_setComp (b : BufState) (t : CTraj) :
    (setComp b t).bestIsOne = b.bestIsOne := by
  cases hb : b.bestIsOne <;> simp [setComp, hb]

theorem bestOf_swapBufs (b : BufState) : bestOf (swapBufs b) = compOf b := by
  cases hb : b.bestIsOne <;> simp [bestOf, compOf, swapBufs, hb]

/-- The candidate trajectory as written into the comp buffer. -/
def candWrite (gen : ℚ → ℚ → ℚ → GenOut) (base : CTraj) (c : Cand) : CTraj :=
  writeBuf base c.sx c.sy c.sth (gen c.sx c.sy c.sth)

/-- The acceptance bool the tier of candidate `c` evaluates against the
incumbent `best` and freshly written buffer `w`. -/
def candAccept (refGoal dvtheta : ℚ) (c : Cand) (best w : CTraj) : Bool :=
  match c.kind with
  | .sweep => sweepAccept refGoal best w
  | .inPlace raw => inPlaceAccept refGoal dvtheta raw best w

theorem procCand_eq (gen : ℚ → ℚ → ℚ → GenOut) (refGoal dvtheta : ℚ)
    (b : BufState) (c : Cand) :
    procCand gen refGoal dvtheta b c =
      if candAccept refGoal dvtheta c (bestOf b) (candWrite gen (compOf b) c)
      then swapBufs (setComp b (candWrite gen (compOf b) c))
      else setComp b (candWrite gen (compOf b) c) := by
  cases c with
  | mk sx sy sth kind =>
    cases kind <;>
      simp [procCand, candAccept, candWrite, bestOf_setComp, compOf_setComp]

theorem sweepAccept_iff (refGoal : ℚ) (best comp : CTraj) :
    sweepAccept refGoal best comp = true ↔
      0 ≤ comp.cost ∧ (comp.cost < best.cost ∨ best.cost < 0) ∧
        comp.goalCost < refGoal := by
  simp [sweepAccept, and_assoc]

theorem inPlaceAccept_iff (refGoal dvtheta raw : ℚ) (best comp : CTraj) :
    inPlaceAccept refGoal dvtheta raw best comp = true ↔
      0 ≤ comp.cost ∧
      ((comp.cost < best.cost ∧ comp.goalCost < best.goalCost) ∨
        best.cost < 0 ∨
        ((¬ best.yv = 0) ∧ comp.goalCost < best.goalCost ∧
          comp.cost < best.cost)) ∧
      (raw > dvtheta ∨ raw < -dvtheta) ∧ comp.goalCost < refGoal := by
  simp [inPlaceAccept, and_assoc, or_assoc]

/-- A candidate for which its tier's acceptance test would pass against
any still-unset incumbent: admissible cost, a completed simulation whose
goal cost beats the reference, and (for the in-place tier) an unclamped
sample beyond dvtheta in magnitude. -/
def AdmAlt (gen : ℚ → ℚ → ℚ → GenOut) (refGoal dvtheta : ℚ) (c : Cand) :
    Prop :=
  0 ≤ (gen c.sx c.sy c.sth).cost ∧
  (∃ g, (gen c.sx c.sy c.sth).goalCost = some g ∧ g < refGoal) ∧
  (match c.kind with
   | .sweep => True
   | .inPlace raw => raw > dvtheta ∨ raw < -dvtheta)

/-- Processing one candidate replaces the incumbent only with the three
guarantees of the claim. -/
theorem procCand_flip (gen : ℚ → ℚ → ℚ → GenOut) (refGoal dvtheta : ℚ)
    (b : BufState) (c : Cand)
    (h : (procCand gen refGoal dvtheta b c).bestIsOne ≠ b.bestIsOne) :
    0 ≤ (bestOf (procCand gen refGoal dvtheta b c)).cost ∧
    ((bestOf (procCand gen refGoal dvtheta b c)).cost < (bestOf b).cost ∨
      (bestOf b).cost < 0) ∧
    (bestOf (procCand gen refGoal dvtheta b c)).goalCost < refGoal := by
  rw [procCand_eq] at h ⊢
  by_cases hacc : candAccept refGoal dvtheta c (bestOf b)
      (candWrite gen (compOf b) c) = true
  · rw [if_pos hacc] at h ⊢
    rw [bestOf_swapBufs, compOf_setComp]
    cases c with
    | mk sx sy sth kind =>
      cases kind with
      | sweep =>
        rw [candAccept, sweepAccept_iff] at hacc
        exact hacc
      | inPlace raw =>
        rw [candAccept, inPlaceAccept_iff] at hacc
        refine ⟨hacc.1, ?_, hacc.2.2.2⟩
        rcases hacc.2.1 with h1 | h1 | h1
        · exact Or.inl h1.1
        · exact Or.inr h1
        · exact Or.inl h1.2.2
  · rw [if_neg hacc] at h
    exact absurd (bestIsOne_setComp b (candWrite gen (compOf b) c)) h

theorem procCand_step_nonneg (gen : ℚ → ℚ → ℚ → GenOut)
    (refGoal dvtheta : ℚ) (b : BufState) (c : Cand)
    (h : 0 ≤ (bestOf b).cost) :
    0 ≤ (bestOf (procCand gen refGoal dvtheta b c)).cost := by
  rw [procCand_eq]
  by_cases hacc : candAccept refGoal dvtheta c (bestOf b)
      (candWrite gen (compOf b) c) = true
  · rw [if_pos hacc, bestOf_swapBufs, compOf_setComp]
    cases c with
    | mk sx sy sth kind =>
      cases kind with
      | sweep => exact ((sweepAccept_iff _ _ _).mp hacc).1
      | inPlace raw => exact ((inPlaceAccept_iff _ _ _ _ _).mp hacc).1
  · rw [if_neg hacc, bestOf_setComp]
    exact h

theorem foldl_step_nonneg (gen : ℚ → ℚ → ℚ → GenOut) (refGoal dvtheta : ℚ)
    (cands : List Cand) (b : BufState) (h : 0 ≤ (bestOf b).cost) :
    0 ≤ (bestOf (cands.foldl (procCand gen refGoal dvtheta) b)).cost := by
  induction cands generalizing b with
  | nil => exact h
  | cons c t ih =>
    exact ih _ (procCand_step_nonneg gen refGoal dvtheta b c h)

theorem procCand_step_inv (gen : ℚ → ℚ → ℚ → GenOut) (refGoal dvtheta : ℚ)
    (b : BufState) (c : Cand)
    (h : 0 ≤ (bestOf b).cost → (bestOf b).goalCost < refGoal) :
    0 ≤ (bestOf (procCand gen refGoal dvtheta b c)).cost →
      (bestOf (procCand gen refGoal dvtheta b c)).goalCost < refGoal := by
  rw [procCand_eq]
  by_cases hacc : candAccept refGoal dvtheta c (bestOf b)
      (candWrite gen (compOf b) c) = true
  · rw [if_pos hacc, bestOf_swapBufs, compOf_setComp]
    intro _
    cases c with
    | mk sx sy sth kind =>
      cases kind with
      | sweep => exact ((sweepAccept_iff _ _ _).mp hacc).2.2
      | inPlace raw => exact ((inPlaceAccept_iff _ _ _ _ _).mp hacc).2.2.2
  · rw [if_neg hacc, bestOf_setComp]
    exact h

theorem procCand_adm (gen : ℚ → ℚ → ℚ → GenOut) (refGoal dvtheta : ℚ)
    (b : BufState) (c : Cand) (hadm : AdmAlt gen refGoal dvtheta c) :
    0 ≤ (bestOf (procCand gen refGoal dvtheta b c)).cost := by
  by_cases h0 : 0 ≤ (bestOf b).cost
  · exact procCand_step_nonneg gen refGoal dvtheta b c h0
  · have hneg : (bestOf b).cost < 0 := lt_of_not_le h0
    obtain ⟨hc, ⟨g, hg, hgr⟩, hk⟩ := hadm
    have hgoal : (candWrite gen (compOf b) c).goalCost = g := by
      simp [candWrite, writeBuf, hg]
    have hcost : (candWrite gen (compOf b) c).cost =
        (gen c.sx c.sy c.sth).cost := rfl
    have hacc : candAccept refGoal dvtheta c (bestOf b)
        (candWrite gen (compOf b) c) = true := by
      cases c with
      | mk sx sy sth kind =>
        cases kind with
        | sweep =>
          simp only [candAccept]
          rw [sweepAccept_iff]
          exact ⟨by rw [hcost]; exact hc, Or.inr hneg,
            by rw [hgoal]; exact hgr⟩
        | inPlace raw =>
          simp only [candAccept]
          rw [inPlaceAccept_iff]
          exact ⟨by rw [hcost]; exact hc, Or.inr (Or.inl hneg),
            by simpa using hk, by rw [hgoal]; exact hgr⟩
    rw [procCand_eq, if_pos hacc, bestOf_swapBufs, compOf_setComp, hcost]
    exact hc

theorem foldl_adm (gen : ℚ → ℚ → ℚ → GenOut) (refGoal dvtheta : ℚ)
    (cands : List Cand) (b : BufState)
    (h : ∃ c ∈ cands, AdmAlt gen refGoal dvtheta c) :
    0 ≤ (bestOf (cands.foldl (procCand gen refGoal dvtheta) b)).cost := by
  induction cands generalizing b with
  | nil => exact absurd h (by simp)
  | cons c t ih =>
    rcases h with ⟨c2, hc2, hadm⟩
    rcases List.mem_cons.mp hc2 with rfl | hmem
    · exact foldl_step_nonneg gen refGoal dvtheta t _
        (procCand_adm gen refGoal dvtheta b c2 hadm)
    · exact ih _ ⟨c2, hmem, hadm⟩

theorem foldl_inv (gen : ℚ → ℚ → ℚ → GenOut) (refGoal dvtheta : ℚ)
    (cands : List Cand) (b : BufState)
    (h : 0 ≤ (bestOf b).cost → (bestOf b).goalCost < refGoal) :
    0 ≤ (bestOf (cands.foldl (procCand gen refGoal dvtheta) b)).cost →
      (bestOf (cands.foldl (procCand gen refGoal dvtheta) b)).goalCost <
        refGoal := by
  induction cands generalizing b with
  | nil => exact h
  | cons c t ih =>
    exact ih _ (procCand_step_inv gen refGoal dvtheta b c h)

/-- Claim C2 (confirmed): in every sampling tier a candidate replaces
the incumbent best only when its cost is non-negative, strictly below
the incumbent's (or the incumbent is still the negative initialization),
and its goal cost is strictly below the zero-sampled-velocity reference
bar; consequently the search never holds a best with goal cost at or
above the bar, and whenever some candidate in the sampled lists is
admissible and beats the bar, the search ends with an admissible best
whose goal cost beats the bar. -/
theorem C2_no_net_progress_guard :
    (∀ (gen : ℚ → ℚ → ℚ → GenOut) (refGoal dvtheta : ℚ) (b : BufState)
      (c : Cand),
      (procCand gen refGoal dvtheta b c).bestIsOne ≠ b.bestIsOne →
      0 ≤ (bestOf (procCand gen refGoal dvtheta b c)).cost ∧
      ((bestOf (procCand gen refGoal dvtheta b c)).cost < (bestOf b).cost ∨
        (bestOf b).cost < 0) ∧
      (bestOf (procCand gen refGoal dvtheta b c)).goalCost < refGoal) ∧
    (∀ (env : CTEnv) (cfg : CTCfg) (st : CTState) (a : CTArgs),
      (∃ c ∈ allCands cfg (computeWindow env cfg a)
          (dSamp (computeWindow env cfg a).maxX (computeWindow env cfg a).minX
            cfg.vx_samples)
          (dSamp (computeWindow env cfg a).maxY (computeWindow env cfg a).minY
            cfg.vy_samples)
          (dSamp (computeWindow env cfg a).maxTh
            (computeWindow env cfg a).minTh cfg.vtheta_samples),
        AdmAlt env.gen (refGoalOf env)
          (dSamp (computeWindow env cfg a).maxTh
            (computeWindow env cfg a).minTh cfg.vtheta_samples) c) →
      0 ≤ (searchBest env cfg st a).cost ∧
      (searchBest env cfg st a).goalCost < refGoalOf env) := by
  constructor
  · exact procCand_flip
  · intro env cfg st a h
    have hvac : 0 ≤ (bestOf (⟨{ st.one with cost := -1 },
        { st.two with cost := -1 }, true⟩ : BufState)).cost →
        (bestOf (⟨{ st.one with cost := -1 },
          { st.two with cost := -1 }, true⟩ : BufState)).goalCost <
          refGoalOf env := by
      intro hc
      exfalso
      simp only [bestOf, if_pos rfl] at hc
      norm_num at hc
    have hnn : 0 ≤ (searchBest env cfg st a).cost :=
      foldl_adm env.gen (refGoalOf env) _ _ _ h
    exact ⟨hnn, foldl_inv env.gen (refGoalOf env) _ _ _ hvac hnn⟩

/-! ### Concrete search instances for witnesses and counterexamples -/

/-- Concrete configuration: two linear and two angular samples, dynamic
window, non-holonomic robot, no valid final goal. -/
def cfgS : CTCfg where
  max_vel_x := 1
  min_vel_x := 0
  max_vel_y := 10
  min_vel_y := -10
  max_vel_th := 10
  min_vel_th := -10
  min_in_place_vel_th := 1
  sim_time := 1
  sim_period := 1
  dwa := true
  holonomic := false
  vx_samples := 2
  vy_samples := 2
  vtheta_samples := 2
  backup_vel := -2
  oscillation_reset_dist := 5
  escape_reset_dist := 100
  escape_reset_theta := 100
  final_goal_valid := false
  final_goal_x := 0
  final_goal_y := 0

/-- Concrete call arguments: at the origin, current angular velocity 5,
unit acceleration limits. -/
def aS : CTArgs where
  x := 0
  y := 0
  theta := 0
  vx := 0
  vtheta := 5
  accx := 1
  accy := 1
  acctheta := 1

/-- Concrete generateTrajectory oracle: only the in-place sample
(0, 0, 4) is admissible (cost 3, goal cost 1); the zero reference
completes with goal cost 10; every other sample fails with cost -2. -/
def genS : ℚ → ℚ → ℚ → GenOut := fun sx sy sth =>
  if sx = 0 ∧ sy = 0 ∧ sth = 4 then ⟨3, some 1⟩
  else if sx = 0 ∧ sy = 0 ∧ sth = 0 then ⟨0, some 10⟩
  else ⟨-2, none⟩

/-- Concrete environment around genS. -/
def envS : CTEnv where
  gen := genS
  hypotF := fun _ _ => 0
  shortAng := fun _ _ => 0
  junkMinX := 100
  junkMinY := 0
  defaultGoalCost := 0

/-- Concrete carried-over state: the rotate-left commitment is latched
from an earlier cycle. -/
def stS : CTState where
  one := ⟨0, 0, 0, 0, 0⟩
  two := ⟨0, 0, 0, 0, 0⟩
  osc := ⟨false, false, false, false, true, false, false, false, 3, 3,
    false, 0, 0, 0⟩

theorem windowS_eval : computeWindow envS cfgS aS = ⟨1, 100, 1, 0, 6, 4⟩ := by
  norm_num [computeWindow, envS, cfgS, aS]

theorem candsS_eval :
    allCands cfgS ⟨1, 100, 1, 0, 6, 4⟩ (-99) 1 2 =
      [⟨100, 0, 0, .sweep⟩, ⟨100, 0, 4, .sweep⟩, ⟨1, 0, 0, .sweep⟩,
        ⟨1, 0, 4, .sweep⟩, ⟨0, 0, 4, .inPlace 4⟩, ⟨0, 0, 6, .inPlace 6⟩] := by
  have ht2 : Int.toNat 2 = 2 := rfl
  norm_num [allCands, tierACands, tierCCands, cfgS, List.range_succ, ht2,
    List.flatMap_cons, List.flatMap_nil]

theorem refGoalS_eval : refGoalOf envS = 10 := by
  norm_num [refGoalOf, envS, genS, writeBuf]

theorem dvxS_eval : dSamp 1 100 cfgS.vx_samples = -99 := by
  norm_num [dSamp, cfgS]

theorem dvyS_eval : dSamp 1 0 cfgS.vy_samples = 1 := by
  norm_num [dSamp, cfgS]

theorem dvthS_eval : dSamp 6 4 cfgS.vtheta_samples = 2 := by
  norm_num [dSamp, cfgS]

theorem searchBufsS_eval :
    searchBufs envS cfgS stS aS =
      ⟨⟨0, 0, 6, -2, 0⟩, ⟨0, 0, 4, 3, 1⟩, false⟩ := by
  simp only [searchBufs, windowS_eval, dvxS_eval, dvyS_eval, dvthS_eval,
    candsS_eval, refGoalS_eval]
  norm_num [stS, envS, genS, procCand, setComp, compOf, bestOf, swapBufs,
    writeBuf, sweepAccept, inPlaceAccept]

theorem searchBestS_eval : searchBest envS cfgS stS aS = ⟨0, 0, 4, 3, 1⟩ := by
  rw [searchBest, searchBufsS_eval]
  rfl

/-- Witness for C2: in the concrete search the in-place candidate
(0, 0, 4) is admissible and beats the reference bar, and the search then
ends with an admissible best whose goal cost beats the bar. -/
theorem C2_witness :
    (∃ c ∈ allCands cfgS (computeWindow envS cfgS aS)
        (dSamp (computeWindow envS cfgS aS).maxX
          (computeWindow envS cfgS aS).minX cfgS.vx_samples)
        (dSamp (computeWindow envS cfgS aS).maxY
          (computeWindow envS cfgS aS).minY cfgS.vy_samples)
        (dSamp (computeWindow envS cfgS aS).maxTh
          (computeWindow envS cfgS aS).minTh cfgS.vtheta_samples),
      AdmAlt envS.gen (refGoalOf envS)
        (dSamp (computeWindow envS cfgS aS).maxTh
          (computeWindow envS cfgS aS).minTh cfgS.vtheta_samples) c) ∧
    0 ≤ (searchBest envS cfgS stS aS).cost ∧
    (searchBest envS cfgS stS aS).goalCost < refGoalOf envS := by
  have hex : ∃ c ∈ allCands cfgS (computeWindow envS cfgS aS)
      (dSamp (computeWindow envS cfgS aS).maxX
        (computeWindow envS cfgS aS).minX cfgS.vx_samples)
      (dSamp (computeWindow envS cfgS aS).maxY
        (computeWindow envS cfgS aS).minY cfgS.vy_samples)
      (dSamp (computeWindow envS cfgS aS).maxTh
        (computeWindow envS cfgS aS).minTh cfgS.vtheta_samples),
      AdmAlt envS.gen (refGoalOf envS)
        (dSamp (computeWindow envS cfgS aS).maxTh
          (computeWindow envS cfgS aS).minTh cfgS.vtheta_samples) c := by
    refine ⟨⟨0, 0, 4, .inPlace 4⟩, ?_, ?_⟩
    · rw [windowS_eval]
      rw [show dSamp (Window.mk 1 100 1 0 6 4).maxX
          (Window.mk 1 100 1 0 6 4).minX cfgS.vx_samples = -99 from dvxS_eval,
        show dSamp (Window.mk 1 100 1 0 6 4).maxY
          (Window.mk 1 100 1 0 6 4).minY cfgS.vy_samples = 1 from dvyS_eval,
        show dSamp (Window.mk 1 100 1 0 6 4).maxTh
          (Window.mk 1 100 1 0 6 4).minTh cfgS.vtheta_samples = 2
          from dvthS_eval, candsS_eval]
      norm_num
    · constructor
      · norm_num [envS, genS]
      constructor
      · exact ⟨1, by norm_num [envS, genS],
          by rw [refGoalS_eval]; norm_num⟩
      · rw [windowS_eval]
        rw [show dSamp (Window.mk 1 100 1 0 6 4).maxTh
            (Window.mk 1 100 1 0 6 4).minTh cfgS.vtheta_samples = 2
            from dvthS_eval]
        norm_num
  refine ⟨hex, C2_no_net_progress_guard.2 envS cfgS stS aS hex⟩

/-! ### Oscillation guard lemmas (for C5) -/

/-- When the search selects an admissible best, createTrajectories
returns it and updates the guard state through the selected branch
(lines 943-991). -/
theorem createTraj_selected (env : CTEnv) (cfg : CTCfg) (st : CTState)
    (a : CTArgs) (hb : 0 ≤ (searchBest env cfg st a).cost) :
    createTrajectories env cfg st a =
      (searchBest env cfg st a,
        ⟨(searchBufs env cfg st a).one, (searchBufs env cfg st a).two,
          oscUpdateSelected env cfg a (searchBest env cfg st a) st.osc⟩) := by
  simp only [searchBest] at hb
  simp only [createTrajectories, searchBest]
  rw [if_pos hb]

/-- Guard update for a selected non-forward best: the anchor is moved to
the current position, the direction classification latches the matching
committed flag and promotes a repeated commitment to the matching stuck
flag, and (the anchor being fresh) the reset does not fire. -/
theorem oscUpdate_nonforward (env : CTEnv) (cfg : CTCfg) (a : CTArgs)
    (best : CTraj) (o : OscState) (hx : ¬ best.xv > 0)
    (hr : 0 ≤ cfg.oscillation_reset_dist) (h0 : env.hypotF 0 0 = 0) :
    (oscUpdateSelected env cfg a best o).prev_x = a.x ∧
    (oscUpdateSelected env cfg a best o).prev_y = a.y ∧
    (best.thetav > 0 →
      (oscUpdateSelected env cfg a best o).rotating_left = true ∧
      (o.rotating_left = true →
        (oscUpdateSelected env cfg a best o).stuck_left = true)) ∧
    (best.thetav < 0 →
      (oscUpdateSelected env cfg a best o).rotating_right = true ∧
      (o.rotating_right = true →
        (oscUpdateSelected env cfg a best o).stuck_right = true)) ∧
    (best.thetav = 0 → best.yv > 0 →
      (oscUpdateSelected env cfg a best o).strafe_right = true ∧
      (o.strafe_right = true →
        (oscUpdateSelected env cfg a best o).stuck_right_strafe = true)) ∧
    (best.thetav = 0 → best.yv < 0 →
      (oscUpdateSelected env cfg a best o).strafe_left = true ∧
      (o.strafe_left = true →
        (oscUpdateSelected env cfg a best o).stuck_left_strafe = true)) := by
  have hno : ¬ env.hypotF (a.x - a.x) (a.y - a.y) >
      cfg.oscillation_reset_dist := by
    rw [sub_self, sub_self, h0]
    exact not_lt.mpr hr
  simp only [oscUpdateSelected, if_pos hx]
  simp only [if_neg hno]
  refine ⟨?_, ?_, ?_, ?_, ?_, ?_⟩
  · simp [apply_ite OscState.prev_x]
  · simp [apply_ite OscState.prev_y]
  · intro ht
    have hnlt : ¬ best.thetav < 0 := by linarith
    simp only [if_neg hnlt, if_pos ht]
    constructor
    · simp [apply_ite OscState.rotating_left]
    · intro hrl
      simp [apply_ite OscState.stuck_left, hrl]
  · intro ht
    simp only [if_pos ht]
    constructor
    · simp [apply_ite OscState.rotating_right]
    · intro hrr
      simp [apply_ite OscState.stuck_right, hrr]
  · intro ht hy
    have h1 : ¬ best.thetav < 0 := by rw [ht]; exact lt_irrefl 0
    have h2 : ¬ best.thetav > 0 := by rw [ht]; exact lt_irrefl 0
    simp only [if_neg h1, if_neg h2, if_pos hy]
    constructor
    · simp [apply_ite OscState.strafe_right]
    · intro hsr
      simp [apply_ite OscState.stuck_right_strafe, hsr]
  · intro ht hy
    have h1 : ¬ best.thetav < 0 := by rw [ht]; exact lt_irrefl 0
    have h2 : ¬ best.thetav > 0 := by rw [ht]; exact lt_irrefl 0
    have h3 : ¬ best.yv > 0 := by linarith
    simp only [if_neg h1, if_neg h2, if_neg h3, if_pos hy]
    constructor
    · simp [apply_ite OscState.strafe_left]
    · intro hsl
      simp [apply_ite OscState.stuck_left_strafe, hsl]

/-- Guard update for a selected forward best whose displacement from the
stored anchor exceeds the oscillation reset distance: every committed
and stuck flag is cleared. -/
theorem oscUpdate_reset (env : CTEnv) (cfg : CTCfg) (a : CTArgs)
    (best : CTraj) (o : OscState) (hx : best.xv > 0)
    (hd : env.hypotF (a.x - o.prev_x) (a.y - o.prev_y) >
      cfg.oscillation_reset_dist) :
    (oscUpdateSelected env cfg a best o).rotating_left = false ∧
    (oscUpdateSelected env cfg a best o).rotating_right = false ∧
    (oscUpdateSelected env cfg a best o).strafe_left = false ∧
    (oscUpdateSelected env cfg a best o).strafe_right = false ∧
    (oscUpdateSelected env cfg a best o).stuck_left = false ∧
    (oscUpdateSelected env cfg a best o).stuck_right = false ∧
    (oscUpdateSelected env cfg a best o).stuck_left_strafe = false ∧
    (oscUpdateSelected env cfg a best o).stuck_right_strafe = false := by
  have hx2 : ¬ ¬ best.xv > 0 := not_not_intro hx
  simp only [oscUpdateSelected, if_neg hx2, if_pos hd, clearFlags]
  refine ⟨?_, ?_, ?_, ?_, ?_, ?_, ?_, ?_⟩
  · simp [apply_ite OscState.rotating_left]
  · simp [apply_ite OscState.rotating_right]
  · simp [apply_ite OscState.strafe_left]
  · simp [apply_ite OscState.strafe_right]
  · simp [apply_ite OscState.stuck_left]
  · simp [apply_ite OscState.stuck_right]
  · simp [apply_ite OscState.stuck_left_strafe]
  · simp [apply_ite OscState.stuck_right_strafe]

/-- Claim C5 (confirmed): after a createTrajectories call whose search
selects an admissible best with non-positive forward velocity, a
positive angular velocity latches rotating-left (stuck-left too when it
was already committed), symmetrically for the other three directions,
and the anchor becomes the current position; and on a selected call
whose displacement from the stored anchor (for a forward best, the
carried-over anchor) exceeds oscillation_reset_dist, all committed and
stuck flags are cleared. -/
theorem C5_oscillation_guard (env : CTEnv) (cfg : CTCfg) (st : CTState)
    (a : CTArgs) (hb : 0 ≤ (searchBest env cfg st a).cost)
    (hr : 0 ≤ cfg.oscillation_reset_dist) (h0 : env.hypotF 0 0 = 0) :
    (¬ (searchBest env cfg st a).xv > 0 →
      (createTrajectories env cfg st a).2.osc.prev_x = a.x ∧
      (createTrajectories env cfg st a).2.osc.prev_y = a.y ∧
      ((searchBest env cfg st a).thetav > 0 →
        (createTrajectories env cfg st a).2.osc.rotating_left = true ∧
        (st.osc.rotating_left = true →
          (createTrajectories env cfg st a).2.osc.stuck_left = true)) ∧
      ((searchBest env cfg st a).thetav < 0 →
        (createTrajectories env cfg st a).2.osc.rotating_right = true ∧
        (st.osc.rotating_right = true →
          (createTrajectories env cfg st a).2.osc.stuck_right = true)) ∧
      ((searchBest env cfg st a).thetav = 0 →
        (searchBest env cfg st a).yv > 0 →
        (createTrajectories env cfg st a).2.osc.strafe_right = true ∧
        (st.osc.strafe_right = true →
          (createTrajectories env cfg st a).2.osc.stuck_right_strafe =
            true)) ∧
      ((searchBest env cfg st a).thetav = 0 →
        (searchBest env cfg st a).yv < 0 →
        (createTrajectories env cfg st a).2.osc.strafe_left = true ∧
        (st.osc.strafe_left = true →
          (createTrajectories env cfg st a).2.osc.stuck_left_strafe =
            true))) ∧
    ((searchBest env cfg st a).xv > 0 →
      env.hypotF (a.x - st.osc.prev_x) (a.y - st.osc.prev_y) >
        cfg.oscillation_reset_dist →
      (createTrajectories env cfg st a).2.osc.rotating_left = false ∧
      (createTrajectories env cfg st a).2.osc.rotating_right = false ∧
      (createTrajectories env cfg st a).2.osc.strafe_left = false ∧
      (createTrajectories env cfg st a).2.osc.strafe_right = false ∧
      (createTrajectories env cfg st a).2.osc.stuck_left = false ∧
      (createTrajectories env cfg st a).2.osc.stuck_right = false ∧
      (createTrajectories env cfg st a).2.osc.stuck_left_strafe = false ∧
      (createTrajectories env cfg st a).2.osc.stuck_right_strafe = false) := by
  rw [createTraj_selected env cfg st a hb]
  constructor
  · intro hx
    obtain ⟨h1, h2, h3, h4, h5, h6⟩ :=
      oscUpdate_nonforward env cfg a (searchBest env cfg st a) st.osc hx hr h0
    exact ⟨h1, h2, h3, h4, h5, h6⟩
  · intro hx hd
    exact oscUpdate_reset env cfg a (searchBest env cfg st a) st.osc hx hd

/-- Witness for C5: in the concrete search the selected best is the
in-place rotation (0, 0, 4); with rotating-left already committed, the
call latches stuck-left, keeps rotating-left committed, and anchors the
current position. -/
theorem C5_witness :
    0 ≤ (searchBest envS cfgS stS aS).cost ∧
    0 ≤ cfgS.oscillation_reset_dist ∧
    envS.hypotF 0 0 = 0 ∧
    (createTrajectories envS cfgS stS aS).2.osc.stuck_left = true ∧
    (createTrajectories envS cfgS stS aS).2.osc.rotating_left = true ∧
    (createTrajectories envS cfgS stS aS).2.osc.prev_x = aS.x := by
  have hb : 0 ≤ (searchBest envS cfgS stS aS).cost := by
    rw [searchBestS_eval]
    norm_num
  have hr : 0 ≤ cfgS.oscillation_reset_dist := by norm_num [cfgS]
  have h0 : envS.hypotF 0 0 = 0 := rfl
  have h := C5_oscillation_guard envS cfgS stS aS hb hr h0
  have hx : ¬ (searchBest envS cfgS stS aS).xv > 0 := by
    rw [searchBestS_eval]
    norm_num
  have ht : (searchBest envS cfgS stS aS).thetav > 0 := by
    rw [searchBestS_eval]
    norm_num
  obtain ⟨hp1, hp2, h3, _, _, _⟩ := h.1 hx
  exact ⟨hb, hr, h0, (h3 ht).2 rfl, (h3 ht).1, hp1⟩

/-! ### Concrete backup-tier runs (for C1) -/

/-- Oracle for the C1 run: every sampled candidate fails (cost -2), but
the backup sample (backup_vel, 0, 0) = (-2, 0, 0) is admissible with
cost 5 and goal cost 1. -/
def genB : ℚ → ℚ → ℚ → GenOut := fun sx sy sth =>
  if sx = -2 ∧ sy = 0 ∧ sth = 0 then ⟨5, some 1⟩ else ⟨-2, none⟩

/-- Oracle for the C1 collision run: every sample fails, the backup pose
fails the footprint check (collision sentinel -5). -/
def genC : ℚ → ℚ → ℚ → GenOut := fun _ _ _ => ⟨-5, none⟩

def envB : CTEnv where
  gen := genB
  hypotF := fun _ _ => 0
  shortAng := fun _ _ => 0
  junkMinX := 100
  junkMinY := 0
  defaultGoalCost := 0

def envC : CTEnv where
  gen := genC
  hypotF := fun _ _ => 0
  shortAng := fun _ _ => 0
  junkMinX := 100
  junkMinY := 0
  defaultGoalCost := 0

/-- Carried-over buffers holding stale content from an earlier cycle:
traj_one still holds velocities (99, 98, 97). -/
def stB : CTState where
  one := ⟨99, 98, 97, 55, 44⟩
  two := ⟨0, 0, 0, 0, 0⟩
  osc := ⟨false, false, false, false, false, false, false, false, 0, 0,
    false, 0, 0, 0⟩

theorem windowB_eval : computeWindow envB cfgS aS = ⟨1, 100, 1, 0, 6, 4⟩ := by
  norm_num [computeWindow, envB, cfgS, aS]

theorem windowC_eval : computeWindow envC cfgS aS = ⟨1, 100, 1, 0, 6, 4⟩ := by
  norm_num [computeWindow, envC, cfgS, aS]

theorem searchBufsB_eval :
    searchBufs envB cfgS stB aS =
      ⟨⟨99, 98, 97, -1, 44⟩, ⟨0, 0, 6, -2, 0⟩, true⟩ := by
  simp only [searchBufs, windowB_eval, dvxS_eval, dvyS_eval, dvthS_eval,
    candsS_eval]
  norm_num [stB, envB, genB, refGoalOf, procCand, setComp, compOf, bestOf,
    swapBufs, writeBuf, sweepAccept, inPlaceAccept]

theorem searchBufsC_eval :
    searchBufs envC cfgS stB aS =
      ⟨⟨99, 98, 97, -1, 44⟩, ⟨0, 0, 6, -5, 0⟩, true⟩ := by
  simp only [searchBufs, windowC_eval, dvxS_eval, dvyS_eval, dvthS_eval,
    candsS_eval]
  norm_num [stB, envC, genC, refGoalOf, procCand, setComp, compOf, bestOf,
    swapBufs, writeBuf, sweepAccept, inPlaceAccept]

/-- Claim C1 (code bug): when every sampled tier is inadmissible and the
backup simulation is admissible (cost 5), createTrajectories does not
return the backup trajectory: the conditional acceptance swap is undone
by the unconditional swap that follows it, so the call returns the stale
other buffer — velocities (99, 98, 97) carried over from an earlier
cycle — with its -1 initialization cost bumped to 1; and when the backup
pose fails the footprint check, the returned cost is the collision
sentinel -5 (negative), because the waiver at lines 1140-1141 still
tests the obsolete -1 collision sentinel. The code's own comments
("if the new trajectory is better... let's take it", "we'll allow
moving backwards slowly even when the static map shows it as blocked")
and the spec describe the intended behaviour the code fails to
implement. -/
theorem C1_backup_tier_eval :
    (createTrajectories envB cfgS stB aS).1 = ⟨99, 98, 97, 1, 44⟩ ∧
    cfgS.backup_vel = -2 ∧ ((99 : ℚ) ≠ -2) ∧
    (createTrajectories envC cfgS stB aS).1 = ⟨-2, 0, 0, -5, 0⟩ ∧
    ((-5 : ℚ) < 0) := by
  refine ⟨?_, by norm_num [cfgS], by norm_num, ?_, by norm_num⟩
  · simp only [createTrajectories, searchBufsB_eval]
    norm_num [bestOf, backupPhase, setComp, compOf, swapBufs, setBest,
      writeBuf, envB, genB, cfgS, stB, aS, clearFlags]
  · simp only [createTrajectories, searchBufsC_eval]
    norm_num [bestOf, backupPhase, setComp, compOf, swapBufs, setBest,
      writeBuf, envC, genC, cfgS, stB, aS, clearFlags]

/-! ### The sampling window (for C3) -/

/-- Following claim C3's words, not the source: for every axis the
window would be the intersection of the configured absolute limits for
that axis with the one-control-period reachable interval around that
same axis's current velocity component (vy being the lateral one). -/
def claimedWindowC3 (cfg : CTCfg) (vx vy vtheta accx accy acctheta : ℚ) :
    Window :=
  ⟨min cfg.max_vel_x (vx + accx * cfg.sim_period),
   max cfg.min_vel_x (vx - accx * cfg.sim_period),
   min cfg.max_vel_y (vy + accy * cfg.sim_period),
   max cfg.min_vel_y (vy - accy * cfg.sim_period),
   min cfg.max_vel_th (vtheta + acctheta * cfg.sim_period),
   max cfg.min_vel_th (vtheta - acctheta * cfg.sim_period)⟩

/-- Configuration for the C3 counterexample: dynamic window, valid far
goal, wide y limits. -/
def cfg3 : CTCfg where
  max_vel_x := 1
  min_vel_x := 0
  max_vel_y := 10
  min_vel_y := -10
  max_vel_th := 10
  min_vel_th := -10
  min_in_place_vel_th := 1
  sim_time := 1
  sim_period := 1
  dwa := true
  holonomic := false
  vx_samples := 2
  vy_samples := 2
  vtheta_samples := 2
  backup_vel := -2
  oscillation_reset_dist := 5
  escape_reset_dist := 100
  escape_reset_theta := 100
  final_goal_valid := true
  final_goal_x := 100
  final_goal_y := 0

def env3 : CTEnv where
  gen := fun _ _ _ => ⟨-2, none⟩
  hypotF := fun a _ => a
  shortAng := fun _ _ => 0
  junkMinX := 0
  junkMinY := 0
  defaultGoalCost := 0

/-- Arguments for the C3 counterexample: current velocity vx = 1 (and
the lateral velocity of the scenario is 0). -/
def a3 : CTArgs where
  x := 0
  y := 0
  theta := 0
  vx := 1
  vtheta := 0
  accx := 1
  accy := 1
  acctheta := 1

/-- Claim C3, counterexample: with current velocities vx = 1, vy = 0 the
code's y window is [0, 2] — centred on the x velocity — while the
claimed intersection for the y axis is [-1, 1]; the computed window is
not the per-axis intersection the claim states. -/
theorem C3_cex_y_axis :
    (computeWindow env3 cfg3 a3).maxY = 2 ∧
    (computeWindow env3 cfg3 a3).minY = 0 ∧
    (claimedWindowC3 cfg3 1 0 0 1 1 1).maxY = 1 ∧
    (claimedWindowC3 cfg3 1 0 0 1 1 1).minY = -1 ∧
    computeWindow env3 cfg3 a3 ≠ claimedWindowC3 cfg3 1 0 0 1 1 1 := by
  have h1 : (computeWindow env3 cfg3 a3).maxY = 2 := by
    norm_num [computeWindow, env3, cfg3, a3]
  have h2 : (claimedWindowC3 cfg3 1 0 0 1 1 1).maxY = 1 := by
    norm_num [claimedWindowC3, cfg3]
  refine ⟨h1, by norm_num [computeWindow, env3, cfg3, a3], h2,
    by norm_num [claimedWindowC3, cfg3], fun he => ?_⟩
  rw [he, h2] at h1
  norm_num at h1

/-- Claim C3 (corrected): in dynamic-window mode with a valid final
goal, the theta window is exactly the intersection of the configured
theta limits with the one-period reachable interval around vtheta; the
y window is the interval around the current x velocity vx clamped to
plus/minus the goal-clamped max_vel_y; the x lower bound uses
min(min_vel_x, goal-clamped max_vel_x), and the x upper bound is the
claimed intersection only when min_vel_x does not exceed it (the code
floors it at min_vel_x). -/
theorem C3_window_dwa (env : CTEnv) (cfg : CTCfg) (a : CTArgs)
    (hv : cfg.final_goal_valid = true) (hd : cfg.dwa = true) :
    (computeWindow env cfg a).maxTh =
      min cfg.max_vel_th (a.vtheta + a.acctheta * cfg.sim_period) ∧
    (computeWindow env cfg a).minTh =
      max cfg.min_vel_th (a.vtheta - a.acctheta * cfg.sim_period) ∧
    (computeWindow env cfg a).maxY =
      min (min cfg.max_vel_y
          (env.hypotF (cfg.final_goal_x - a.x) (cfg.final_goal_y - a.y) /
            cfg.sim_time))
        (a.vx + a.accy * cfg.sim_period) ∧
    (computeWindow env cfg a).minY =
      max (-(min cfg.max_vel_y
          (env.hypotF (cfg.final_goal_x - a.x) (cfg.final_goal_y - a.y) /
            cfg.sim_time)))
        (a.vx - a.accy * cfg.sim_period) ∧
    (computeWindow env cfg a).minX =
      max (min cfg.min_vel_x
          (min cfg.max_vel_x
            (env.hypotF (cfg.final_goal_x - a.x) (cfg.final_goal_y - a.y) /
              cfg.sim_time)))
        (a.vx - a.accx * cfg.sim_period) ∧
    (cfg.min_vel_x ≤ min (min cfg.max_vel_x
          (env.hypotF (cfg.final_goal_x - a.x) (cfg.final_goal_y - a.y) /
            cfg.sim_time))
        (a.vx + a.accx * cfg.sim_period) →
      (computeWindow env cfg a).maxX =
        min (min cfg.max_vel_x
            (env.hypotF (cfg.final_goal_x - a.x) (cfg.final_goal_y - a.y) /
              cfg.sim_time))
          (a.vx + a.accx * cfg.sim_period)) := by
  simp only [computeWindow, hv, hd, if_true]
  refine ⟨trivial, trivial, trivial, trivial, trivial, fun h => ?_⟩
  exact max_eq_left h

/-- Witness for C3's corrected statement: the concrete dwa configuration
satisfies its hypotheses, and the theta window there is the exact
intersection [-1, 1]. -/
theorem C3_witness :
    cfg3.final_goal_valid = true ∧ cfg3.dwa = true ∧
    (computeWindow env3 cfg3 a3).maxTh = 1 ∧
    (computeWindow env3 cfg3 a3).minTh = -1 := by
  have h := C3_window_dwa env3 cfg3 a3 rfl rfl
  refine ⟨rfl, rfl, ?_, ?_⟩
  · rw [h.1]
    norm_num [cfg3, a3]
  · rw [h.2.1]
    norm_num [cfg3, a3]

/-! ### Determinism of createTrajectories (for C6)

A buffer-free reference fold simulates the pointer-swapped two-buffer
search. The only assumption on the generateTrajectory oracle is the one
the real generateTrajectory satisfies: a run with non-negative cost
completed, hence wrote goal_cost_traj_. -/

/-- The property of generateTrajectory the simulation relies on. -/
def HGen (gen : ℚ → ℚ → ℚ → GenOut) : Prop :=
  ∀ s1 s2 s3 : ℚ, 0 ≤ (gen s1 s2 s3).cost →
    ((gen s1 s2 s3).goalCost).isSome = true

/-- The generateTrajectory model satisfies HGen: every early return
carries a negative sentinel cost, and a completed run sets the goal
cost. -/
theorem HGen_generateTrajectory (env : GenEnv) (cfg : GenCfg)
    (x y th vx vy vth ax ay ath imp : ℚ) :
    HGen (fun sx sy sth =>
      ⟨(generateTrajectory env cfg x y th vx vy vth sx sy sth ax ay ath
          imp).cost,
       (generateTrajectory env cfg x y th vx vy vth sx sy sth ax ay ath
          imp).goalCost⟩) := by
  intro s1 s2 s3 hc
  simp only [generateTrajectory] at hc ⊢
  rcases hr : runK env cfg imp
      (cfg.sim_time / ((numSteps env cfg s1 s2 s3 : ℤ) : ℚ)) (s1, s2, s3)
      (ax, ay, ath) (numSteps env cfg s1 s2 s3).toNat
      ⟨⟨x, y, th, vx, vy, vth⟩, 0, 0, 0, 0⟩ with c | a2
  · rw [hr] at hc
    cases c <;> norm_num [sentinelCost] at hc
  · rfl

/-- The virtual incumbent the reference fold compares against while no
candidate has been accepted: only its -1 cost is ever relevant. -/
def noneIncumbent : CTraj := ⟨0, 0, 0, -1, 0⟩

/-- The candidate as a trajectory value (goal cost 0 when the
simulation failed; never read in that case, the cost being negative). -/
def candTraj (gen : ℚ → ℚ → ℚ → GenOut) (c : Cand) : CTraj :=
  ⟨c.sx, c.sy, c.sth, (gen c.sx c.sy c.sth).cost,
    ((gen c.sx c.sy c.sth).goalCost).getD 0⟩

/-- Buffer-free reference step of the search fold. -/
def stepRef (gen : ℚ → ℚ → ℚ → GenOut) (refGoal dvtheta : ℚ)
    (r : Option CTraj) (c : Cand) : Option CTraj :=
  if candAccept refGoal dvtheta c (r.getD noneIncumbent) (candTraj gen c)
  then some (candTraj gen c) else r

/-- The best candidate the pre-backup search accepts, computed without
the reusable buffers; a function of the call arguments only. -/
def bestAfterOf (env : CTEnv) (cfg : CTCfg) (a : CTArgs) : Option CTraj :=
  let w := computeWindow env cfg a
  let dvx := dSamp w.maxX w.minX cfg.vx_samples
  let dvy := dSamp w.maxY w.minY cfg.vy_samples
  let dvtheta := dSamp w.maxTh w.minTh cfg.vtheta_samples
  (allCands cfg w dvx dvy dvtheta).foldl
    (stepRef env.gen (refGoalOf env) dvtheta) none

/-- Simulation invariant between the two-buffer fold and the reference
fold: before any acceptance, best_traj still points at buffer one whose
only live field is its -1 cost (the rest is the carried-over junk `j`);
after an acceptance, best_traj holds exactly the reference best. -/
def BufInv (b : BufState) (r : Option CTraj) (j : CTraj) : Prop :=
  match r with
  | none => b.bestIsOne = true ∧ b.one = ⟨j.xv, j.yv, j.thetav, -1, j.goalCost⟩
  | some t => bestOf b = t

theorem candAccept_nonneg (refGoal dvtheta : ℚ) (c : Cand) (best w : CTraj)
    (h : candAccept refGoal dvtheta c best w = true) : 0 ≤ w.cost := by
  rcases c with ⟨sx, sy, sth, kind⟩
  cases kind with
  | sweep => exact ((sweepAccept_iff _ _ _).mp h).1
  | inPlace raw => exact ((inPlaceAccept_iff _ _ _ _ _).mp h).1

theorem candWrite_eq_candTraj (gen : ℚ → ℚ → ℚ → GenOut) (base : CTraj)
    (c : Cand) (hgen : HGen gen) (hc : 0 ≤ (gen c.sx c.sy c.sth).cost) :
    candWrite gen base c = candTraj gen c := by
  obtain ⟨g, hg⟩ := Option.isSome_iff_exists.mp (hgen c.sx c.sy c.sth hc)
  simp [candWrite, writeBuf, candTraj, hg]

theorem accept_agree (gen : ℚ → ℚ → ℚ → GenOut) (refGoal dvtheta : ℚ)
    (c : Cand) (best base : CTraj) (hgen : HGen gen) :
    candAccept refGoal dvtheta c best (candWrite gen base c) =
      candAccept refGoal dvtheta c best (candTraj gen c) := by
  by_cases hc : 0 ≤ (gen c.sx c.sy c.sth).cost
  · rw [candWrite_eq_candTraj gen base c hgen hc]
  · have h1 : decide (0 ≤ (gen c.sx c.sy c.sth).cost) = false :=
      decide_eq_false hc
    rcases c with ⟨sx, sy, sth, kind⟩
    cases kind <;>
      simp [candAccept, sweepAccept, inPlaceAccept, candWrite, writeBuf,
        candTraj, h1]

/-- Acceptance does not distinguish two incumbents that both still carry
a negative cost. -/
theorem accept_neg (refGoal dvtheta : ℚ) (c : Cand) (b1 b2 w : CTraj)
    (h1 : b1.cost < 0) (h2 : b2.cost < 0) :
    candAccept refGoal dvtheta c b1 w = candAccept refGoal dvtheta c b2 w := by
  have hd1 : decide (b1.cost < 0) = true := decide_eq_true h1
  have hd2 : decide (b2.cost < 0) = true := decide_eq_true h2
  rcases c with ⟨sx, sy, sth, kind⟩
  cases kind <;>
    simp [candAccept, sweepAccept, inPlaceAccept, hd1, hd2]

theorem bufInv_step (gen : ℚ → ℚ → ℚ → GenOut) (refGoal dvtheta : ℚ)
    (hgen : HGen gen) (b : BufState) (r : Option CTraj) (j : CTraj)
    (c : Cand) (h : BufInv b r j) :
    BufInv (procCand gen refGoal dvtheta b c)
      (stepRef gen refGoal dvtheta r c) j := by
  rw [procCand_eq, stepRef]
  cases r with
  | none =>
    obtain ⟨hb1, hb2⟩ := h
    have hbo : bestOf b = ⟨j.xv, j.yv, j.thetav, -1, j.goalCost⟩ := by
      simp [bestOf, hb1, hb2]
    have hagree : candAccept refGoal dvtheta c (bestOf b)
        (candWrite gen (compOf b) c) =
        candAccept refGoal dvtheta c ((none : Option CTraj).getD noneIncumbent)
          (candTraj gen c) := by
      rw [accept_agree gen refGoal dvtheta c (bestOf b) (compOf b) hgen]
      apply accept_neg
      · rw [hbo]
        norm_num
      · norm_num [noneIncumbent]
    rw [hagree]
    by_cases hacc : candAccept refGoal dvtheta c
        ((none : Option CTraj).getD noneIncumbent) (candTraj gen c) = true
    · rw [if_pos hacc, if_pos hacc]
      show bestOf (swapBufs (setComp b (candWrite gen (compOf b) c))) =
        candTraj gen c
      rw [bestOf_swapBufs, compOf_setComp]
      exact candWrite_eq_candTraj gen (compOf b) c hgen
        (candAccept_nonneg refGoal dvtheta c _ _ hacc)
    · rw [if_neg hacc, if_neg hacc]
      refine ⟨?_, ?_⟩
      · rw [bestIsOne_setComp]
        exact hb1
      · have hone : (setComp b (candWrite gen (compOf b) c)).one = b.one := by
          simp [setComp, hb1]
        rw [hone]
        exact hb2
  | some t =>
    have hbo : bestOf b = t := h
    have hagree : candAccept refGoal dvtheta c (bestOf b)
        (candWrite gen (compOf b) c) =
        candAccept refGoal dvtheta c ((some t).getD noneIncumbent)
          (candTraj gen c) := by
      rw [Option.getD_some, hbo]
      exact accept_agree gen refGoal dvtheta c t (compOf b) hgen
    rw [hagree]
    by_cases hacc : candAccept refGoal dvtheta c
        ((some t).getD noneIncumbent) (candTraj gen c) = true
    · rw [if_pos hacc, if_pos hacc]
      show bestOf (swapBufs (setComp b (candWrite gen (compOf b) c))) =
        candTraj gen c
      rw [bestOf_swapBufs, compOf_setComp]
      refine candWrite_eq_candTraj gen (compOf b) c hgen ?_
      have := candAccept_nonneg refGoal dvtheta c _ _ hacc
      simpa [candTraj] using this
    · rw [if_neg hacc, if_neg hacc]
      show bestOf (setComp b (candWrite gen (compOf b) c)) = t
      rw [bestOf_setComp]
      exact hbo

theorem bufInv_fold (gen : ℚ → ℚ → ℚ → GenOut) (refGoal dvtheta : ℚ)
    (hgen : HGen gen) (cands : List Cand) (b : BufState) (r : Option CTraj)
    (j : CTraj) (h : BufInv b r j) :
    BufInv (cands.foldl (procCand gen refGoal dvtheta) b)
      (cands.foldl (stepRef gen refGoal dvtheta) r) j := by
  induction cands generalizing b r with
  | nil => exact h
  | cons c cs ih =>
    exact ih _ _ (bufInv_step gen refGoal dvtheta hgen b r j c h)

theorem bufInv_search (env : CTEnv) (cfg : CTCfg) (st : CTState) (a : CTArgs)
    (hgen : HGen env.gen) :
    BufInv (searchBufs env cfg st a) (bestAfterOf env cfg a) st.one := by
  exact bufInv_fold env.gen (refGoalOf env) _ hgen _ _ _ _ ⟨rfl, rfl⟩

theorem bestAfter_some_nonneg (gen : ℚ → ℚ → ℚ → GenOut)
    (refGoal dvtheta : ℚ) :
    ∀ (cands : List Cand) (r : Option CTraj),
      (∀ t, r = some t → 0 ≤ t.cost) →
      ∀ t, cands.foldl (stepRef gen refGoal dvtheta) r = some t →
        0 ≤ t.cost := by
  intro cands
  induction cands with
  | nil =>
    intro r h t ht
    exact h t ht
  | cons c cs ih =>
    intro r h t ht
    refine ih _ ?_ t ht
    intro t2 ht2
    rw [stepRef] at ht2
    by_cases hacc : candAccept refGoal dvtheta c (r.getD noneIncumbent)
        (candTraj gen c) = true
    · rw [if_pos hacc] at ht2
      have ht3 := Option.some.inj ht2
      rw [← ht3]
      exact candAccept_nonneg refGoal dvtheta c _ _ hacc
    · rw [if_neg hacc] at ht2
      exact h t2 ht2

/-- When the reference search accepts some candidate, createTrajectories
returns exactly that trajectory, whatever the carried-over buffers and
guard state held. -/
theorem createTraj_of_some (env : CTEnv) (cfg : CTCfg) (st : CTState)
    (a : CTArgs) (hgen : HGen env.gen) (t : CTraj)
    (ht : bestAfterOf env cfg a = some t) :
    (createTrajectories env cfg st a).1 = t := by
  have hinv := bufInv_search env cfg st a hgen
  rw [ht] at hinv
  have hbo : bestOf (searchBufs env cfg st a) = t := hinv
  have hnn : 0 ≤ t.cost := by
    refine bestAfter_some_nonneg env.gen (refGoalOf env) _ _ none ?_ t ht
    intro t2 ht2
    exact absurd ht2 (by simp)
  simp only [createTrajectories, hbo]
  rw [if_pos hnn]

/-- The key fields of a returned trajectory: the chosen velocities and
the cost (the payload of claim C6). -/
def resKey (t : CTraj) : ℚ × ℚ × ℚ × ℚ := (t.xv, t.yv, t.thetav, t.cost)

/-- Evaluation of the backup tier from a still-unset incumbent. -/
theorem backupPhase_eval (env : CTEnv) (cfg : CTCfg) (a : CTArgs)
    (j fill : CTraj) (o : OscState) (hj : j.cost = -1) :
    resKey (backupPhase env cfg a ⟨j, fill, true⟩ o).1 =
      (if 0 ≤ (env.gen cfg.backup_vel 0 0).cost
       then (j.xv, j.yv, j.thetav, (1 : ℚ))
       else (cfg.backup_vel, 0, 0,
         if (env.gen cfg.backup_vel 0 0).cost = -1 then 1
         else (env.gen cfg.backup_vel 0 0).cost)) ∧
    (backupPhase env cfg a ⟨j, fill, true⟩ o).2.1.one.xv = j.xv ∧
    (backupPhase env cfg a ⟨j, fill, true⟩ o).2.1.one.yv = j.yv ∧
    (backupPhase env cfg a ⟨j, fill, true⟩ o).2.1.one.thetav = j.thetav ∧
    (backupPhase env cfg a ⟨j, fill, true⟩ o).2.1.one.goalCost =
      j.goalCost := by
  by_cases hc : 0 ≤ (env.gen cfg.backup_vel 0 0).cost
  · have hcond : 0 ≤ (writeBuf fill cfg.backup_vel 0 0
        (env.gen cfg.backup_vel 0 0)).cost ∧
        ((writeBuf fill cfg.backup_vel 0 0 (env.gen cfg.backup_vel 0 0)).cost
            < j.cost ∨ j.cost < 0) := by
      refine ⟨by simpa [writeBuf] using hc, Or.inr ?_⟩
      rw [hj]
      norm_num
    simp only [backupPhase, setComp, compOf, bestOf, swapBufs, setBest,
      if_true, Bool.not_true, Bool.not_false]
    norm_num [hcond.1, hcond.2, hc, hj, resKey, writeBuf]
  · have hcond : ¬ (0 ≤ (writeBuf fill cfg.backup_vel 0 0
        (env.gen cfg.backup_vel 0 0)).cost ∧
        ((writeBuf fill cfg.backup_vel 0 0 (env.gen cfg.backup_vel 0 0)).cost
            < j.cost ∨ j.cost < 0)) := by
      intro hcc
      exact hc (by simpa [writeBuf] using hcc.1)
    simp only [backupPhase, setComp, compOf, bestOf, swapBufs, setBest,
      if_true, Bool.not_true, Bool.not_false]
    norm_num [hcond, hc, hj, resKey, writeBuf]
    by_cases hm : (env.gen cfg.backup_vel 0 0).cost = -1 <;> simp [hm]

/-- When the reference search accepts nothing, createTrajectories runs
the backup tier: the returned key fields depend on the carried-over
buffer one only through its velocity fields, which the call preserves. -/
theorem createTraj_of_none (env : CTEnv) (cfg : CTCfg) (st : CTState)
    (a : CTArgs) (hgen : HGen env.gen)
    (hn : bestAfterOf env cfg a = none) :
    resKey (createTrajectories env cfg st a).1 =
      (if 0 ≤ (env.gen cfg.backup_vel 0 0).cost
       then (st.one.xv, st.one.yv, st.one.thetav, (1 : ℚ))
       else (cfg.backup_vel, 0, 0,
         if (env.gen cfg.backup_vel 0 0).cost = -1 then 1
         else (env.gen cfg.backup_vel 0 0).cost)) ∧
    (createTrajectories env cfg st a).2.one.xv = st.one.xv ∧
    (createTrajectories env cfg st a).2.one.yv = st.one.yv ∧
    (createTrajectories env cfg st a).2.one.thetav = st.one.thetav ∧
    (createTrajectories env cfg st a).2.one.goalCost = st.one.goalCost := by
  have hinv := bufInv_search env cfg st a hgen
  rw [hn] at hinv
  obtain ⟨hb1, hb2⟩ := hinv
  rcases hsb : searchBufs env cfg st a with ⟨one1, two1, flag1⟩
  rw [hsb] at hb1 hb2
  simp only at hb1 hb2
  subst hb1
  subst hb2
  have hneg : ¬ 0 ≤ (bestOf (⟨⟨st.one.xv, st.one.yv, st.one.thetav, -1,
      st.one.goalCost⟩, two1, true⟩ : BufState)).cost := by
    norm_num [bestOf]
  simp only [createTrajectories, hsb, if_neg hneg]
  have hb := backupPhase_eval env cfg a
    ⟨st.one.xv, st.one.yv, st.one.thetav, -1, st.one.goalCost⟩ two1 st.osc rfl
  exact ⟨hb.1, hb.2.1, hb.2.2.1, hb.2.2.2.1, hb.2.2.2.2⟩

/-- Claim C6 (confirmed): two createTrajectories calls with identical
arguments and no configuration or plan change in between return
identical chosen velocity components and identical cost, whatever the
two reusable buffers carried over from earlier cycles; the
generateTrajectory oracle is only assumed to satisfy the property the
real generateTrajectory has (non-negative cost implies the goal cost
was written). -/
theorem C6_createTrajectories_deterministic (env : CTEnv) (cfg : CTCfg)
    (st : CTState) (a : CTArgs) (hgen : HGen env.gen) :
    resKey (createTrajectories env cfg
        (createTrajectories env cfg st a).2 a).1 =
      resKey (createTrajectories env cfg st a).1 := by
  rcases h : bestAfterOf env cfg a with _ | t
  · have h1 := createTraj_of_none env cfg st a hgen h
    have h2 := createTraj_of_none env cfg (createTrajectories env cfg st a).2
      a hgen h
    rw [h2.1, h1.1, h1.2.1, h1.2.2.1, h1.2.2.2.1]
  · rw [createTraj_of_some env cfg st a hgen t h,
      createTraj_of_some env cfg (createTrajectories env cfg st a).2 a hgen
        t h]

/-- Witness for C6: with the concrete all-rejecting oracle (which
satisfies the HGen hypothesis vacuously for negative costs and directly
for the admissible backup), two identical calls return the same key. -/
theorem C6_witness :
    HGen envB.gen ∧
    resKey (createTrajectories envB cfgS
        (createTrajectories envB cfgS stB aS).2 aS).1 =
      resKey (createTrajectories envB cfgS stB aS).1 := by
  have hgen : HGen envB.gen := by
    intro s1 s2 s3 hc
    simp only [envB, genB] at hc ⊢
    by_cases h : s1 = -2 ∧ s2 = 0 ∧ s3 = 0
    · rw [if_pos h]
      rfl
    · rw [if_neg h] at hc
      norm_num at hc
  exact ⟨hgen,
    C6_createTrajectories_deterministic envB cfgS stB aS hgen⟩
